import Mathlib

/-!
# ChangePasswordDialog (VeraCrypt, `src/Main/Forms/ChangePasswordDialog.cpp`)

A shallow embedding of the dialog that changes a volume's password, keyfiles and
header key derivation algorithm, together with theorems about it.

The two event handlers `OnPasswordPanelUpdate` and `OnOKButtonClick` are embedded as
functions over an explicit `World` (the log of calls made to the collaborators of the
dialog, plus the owner of the device behind the volume path).  Everything the handlers
obtain from outside the file (the operator's answers, the outcome of the thread routine,
the portability check, privileges, ...) is read from an `Environment`.  The constructor is
embedded as the log of the calls its body makes, with the exception it throws, if any.
-/

namespace VeraCrypt

/-! ## Data model -/

/-- Enumerators of `ChangePasswordDialog::Mode::Enum`.  `Invalid` stands for every value
of the C++ enumeration type other than the four declared enumerators (the `default:`
arms of the two `switch` statements). -/
inductive Mode where
  | ChangePasswordAndKeyfiles
  | ChangeKeyfiles
  | RemoveAllKeyfiles
  | ChangePkcs5Prf
  | Invalid
  deriving DecidableEq, Repr

/-- Modelled from the spec: `VolumePassword` is declared outside this file; a byte
sequence with a length. -/
structure VolumePassword where
  PasswordData : List Nat
  deriving DecidableEq, Repr

/-- Modelled from the spec: `VolumePassword::Size ()`, the length of the byte sequence. -/
def VolumePassword.Size (p : VolumePassword) : Nat :=
  p.PasswordData.length

/-- Modelled from the spec: `VolumePassword::IsEmpty ()`, true iff the length is 0. -/
def VolumePassword.IsEmpty (p : VolumePassword) : Bool :=
  p.Size == 0

/-- One keyfile reference. -/
structure Keyfile where
  Path : String
  deriving DecidableEq, Repr

/-- The type `KeyfileList` of the source: an ordered collection of keyfiles. -/
abbrev KeyfileList := List Keyfile

/-- The hash algorithm associated with a key derivation function. -/
structure Hash where
  Name : String
  deriving DecidableEq, Repr

/-- The type `Pkcs5Kdf` of the source, as far as the dialog observes it: `GetName ()` and
`GetHash ()`. -/
structure Pkcs5Kdf where
  Name : String
  Hash : Hash
  deriving DecidableEq, Repr

/-- The type `UserId` of the source; `SystemId` is a `uid_t` (unsigned, 32 bits). -/
structure UserId where
  SystemId : Nat
  deriving DecidableEq, Repr

/-- The value `(uid_t) -1` of lines 149 and 159. -/
def UID_MINUS_ONE : Nat := 2 ^ 32 - 1

/-- The type `VolumePath` of the source: the path text and the result of `IsDevice ()`. -/
structure VolumePath where
  Data : String
  IsDevice : Bool
  deriving DecidableEq, Repr

/-- What the dialog observes of a `VolumePasswordPanel` through its getters:
`GetPassword ()`, `GetKeyfiles ()` (a null pointer is `none`), `GetPkcs5Kdf ()` (a null
pointer is `none`), `GetVolumePim ()`, `GetTrueCryptMode ()`, `PasswordsMatch ()` and
`GetHeaderWipeCount ()`. -/
structure VolumePasswordPanel where
  Password : VolumePassword
  Keyfiles : Option KeyfileList
  Pkcs5Kdf : Option Pkcs5Kdf
  VolumePim : Int
  TrueCryptMode : Bool
  PasswordsMatch : Bool
  HeaderWipeCount : Int
  deriving DecidableEq, Repr

/-- The members of `ChangePasswordDialog` the handlers read, and the enabled state of
`OKButton`. -/
structure ChangePasswordDialog where
  DialogMode : Mode
  Path : VolumePath
  CurrentPasswordPanel : VolumePasswordPanel
  NewPasswordPanel : VolumePasswordPanel
  OKButtonEnabled : Bool
  deriving DecidableEq, Repr

/-- The keys of the language strings used by the dialog. -/
inductive LangKey where
  | ALGO_NOT_SUPPORTED_FOR_TRUECRYPT_MODE
  | PIM_REQUIRE_LONG_PASSWORD
  | PASSWORD_LENGTH_WARNING
  | PIM_SMALL_WARNING
  | PASSWORD_CHANGED
  | KEYFILE_CHANGED
  | PKCS5_PRF_CHANGED
  deriving DecidableEq, Repr

/-- The exceptions the `catch` clauses of `OnOKButtonClick` tell apart:
`UnportablePassword` (first clause), any other `PasswordException` (second clause), and
other exceptions (third clause), among them `ParameterIncorrect`. -/
inductive ExceptionKind where
  | UnportablePassword
  | PasswordException
  | ParameterIncorrect
  | Other
  deriving DecidableEq, Repr

/-- Which of the two password panels a call is made on. -/
inductive Panel where
  | Current
  | New
  deriving DecidableEq, Repr

/-- The arguments of the constructor of `ChangePasswordThreadRoutine` (lines 164-166),
in the order they are passed. -/
structure ChangePasswordThreadRoutine where
  m_volumePath : VolumePath
  m_preserveTimestamps : Bool
  m_password : VolumePassword
  m_pim : Int
  m_kdf : Option Pkcs5Kdf
  m_truecryptMode : Bool
  m_keyfiles : Option KeyfileList
  m_newPassword : VolumePassword
  m_newPim : Int
  m_newKeyfiles : Option KeyfileList
  m_newPkcs5Kdf : Option Pkcs5Kdf
  m_wipeCount : Int
  deriving DecidableEq, Repr

/-- The calls the handlers make to their collaborators, in the order they are made. -/
inductive Effect where
  | ShowWarning (key : LangKey)
  | ShowWarningException (e : ExceptionKind)
  | ShowError (key : LangKey)
  | ShowErrorException (e : ExceptionKind)
  | ShowInfo (key : LangKey)
  | AskYesNo (key : LangKey)
  | EventSkip
  | CheckPortability (password : VolumePassword)
  | SetFocusToPasswordTextCtrl (panel : Panel)
  | SetFocusToPimTextCtrl (panel : Panel)
  | SetEnrichedByUserStatus (status : Bool)
  | UserEnrichRandomPool (hash : Option Hash)
  | GetOwner (path : VolumePath)
  | SetFileOwner (path : VolumePath) (owner : UserId)
  | ExecuteWaitThreadRoutine (routine : ChangePasswordThreadRoutine)
  | EndModalOK
  | OKButtonEnable (enable : Bool)
  | UpdatePimHelpText (pimChanged : Bool)
  deriving DecidableEq, Repr

/-- The state outside the dialog: the log of calls made so far and the owner of the
device behind `Path`. -/
structure World where
  Trace : List Effect
  DeviceOwner : UserId
  deriving DecidableEq, Repr

/-- Everything the handlers obtain from outside this file.
* `WarningSizeThreshold`: the constant `VolumePassword::WarningSizeThreshold`;
* `TC_UNIX`: whether lines 148-161 are compiled;
* `Portable`: whether `CheckPortability ()` returns (it throws `UnportablePassword`
  otherwise);
* `HasAdminPrivileges`, `getuid`, `PreserveTimestamps`: results of the calls of the
  same names;
* `AskYesNo`: the operator's answer to a question;
* `GetOwnerError`, `SetFileOwnerError`, `RekeyError`: the exception raised by
  `GetOwner ()`, by `SetFileOwner` (for a given new owner) and by
  `ExecuteWaitThreadRoutine`, `none` when the call returns. -/
structure Environment where
  WarningSizeThreshold : Nat
  TC_UNIX : Bool
  Portable : VolumePassword → Bool
  HasAdminPrivileges : Bool
  getuid : UserId
  PreserveTimestamps : Bool
  AskYesNo : LangKey → Bool
  GetOwnerError : Option ExceptionKind
  SetFileOwnerError : UserId → Option ExceptionKind
  RekeyError : Option ExceptionKind

/-- How a block of `OnOKButtonClick` is left other than by falling through: by a
`return` statement or by an exception. -/
inductive Exit where
  | Return
  | Throw (e : ExceptionKind)
  deriving DecidableEq, Repr

/-- Appends one call to the log. -/
def World.emit (w : World) (e : Effect) : World :=
  { w with Trace := w.Trace ++ [e] }

/-! ## OnPasswordPanelUpdate (lines 207-241) -/

/-- The test `!panel->GetKeyfiles() || panel->GetKeyfiles()->empty()` of lines 212
and 222. -/
def keyfilesEmpty (keyfiles : Option KeyfileList) : Bool :=
  match keyfiles with
  | none => true
  | some l => l.isEmpty

/-- The value of the local variable `ok` at line 233. -/
def OnPasswordPanelUpdate.ok (d : ChangePasswordDialog) : Bool :=
  let ok := true
  let passwordEmpty := d.CurrentPasswordPanel.Password.IsEmpty
  let keyfilesEmpty := keyfilesEmpty d.CurrentPasswordPanel.Keyfiles
  let ok := if passwordEmpty && keyfilesEmpty then false else ok
  let ok :=
    if d.DialogMode == Mode.RemoveAllKeyfiles && (passwordEmpty || keyfilesEmpty) then false
    else ok
  if d.DialogMode == Mode.ChangePasswordAndKeyfiles || d.DialogMode == Mode.ChangeKeyfiles then
    let newKeyfilesEmpty := VeraCrypt.keyfilesEmpty d.NewPasswordPanel.Keyfiles
    let ok :=
      if d.DialogMode == Mode.ChangeKeyfiles
          && ((passwordEmpty && newKeyfilesEmpty) || (keyfilesEmpty && newKeyfilesEmpty)) then
        false
      else ok
    let ok :=
      if d.DialogMode == Mode.ChangePasswordAndKeyfiles
          && ((d.NewPasswordPanel.Password.IsEmpty && newKeyfilesEmpty)
              || !d.NewPasswordPanel.PasswordsMatch) then
        false
      else ok
    ok
  else ok

/-- The handler `ChangePasswordDialog::OnPasswordPanelUpdate`: enables or disables the OK
button and, in mode `ChangePasswordAndKeyfiles`, updates the PIM help text. -/
def OnPasswordPanelUpdate (d : ChangePasswordDialog) (w : World) : ChangePasswordDialog × World :=
  let ok := OnPasswordPanelUpdate.ok d
  let d1 := { d with OKButtonEnabled := ok }
  let w1 := w.emit (Effect.OKButtonEnable ok)
  if d.DialogMode == Mode.ChangePasswordAndKeyfiles then
    let pimChanged := d.CurrentPasswordPanel.VolumePim != d.NewPasswordPanel.VolumePim
    (d1, w1.emit (Effect.UpdatePimHelpText pimChanged))
  else (d1, w1)

/-! ## OnOKButtonClick (lines 80-205) -/

/-- The condition of line 89. -/
def algoNotSupportedForTrueCryptMode (d : ChangePasswordDialog) : Bool :=
  match d.CurrentPasswordPanel.Pkcs5Kdf with
  | none => false
  | some currentKdf => d.CurrentPasswordPanel.TrueCryptMode && (currentKdf.Name == "HMAC-SHA-256")

/-- Lines 104-128: the checks on the size of the new password and on the new PIM.  The
second component is `false` when the handler returns from inside the checks. -/
def checkPasswordSizeAndPim (env : Environment) (newPassword : VolumePassword) (newPim : Int)
    (w : World) : World × Bool :=
  if newPassword.Size > 0 then
    if newPassword.Size < env.WarningSizeThreshold then
      if newPim < 485 then
        (w.emit (Effect.ShowError LangKey.PIM_REQUIRE_LONG_PASSWORD), false)
      else
        let w1 := w.emit (Effect.AskYesNo LangKey.PASSWORD_LENGTH_WARNING)
        if !env.AskYesNo LangKey.PASSWORD_LENGTH_WARNING then
          (w1.emit (Effect.SetFocusToPasswordTextCtrl Panel.New), false)
        else (w1, true)
    else if newPim < 485 then
      let w1 := w.emit (Effect.AskYesNo LangKey.PIM_SMALL_WARNING)
      if !env.AskYesNo LangKey.PIM_SMALL_WARNING then
        (w1.emit (Effect.SetFocusToPimTextCtrl Panel.New), false)
      else (w1, true)
    else (w, true)
  else (w, true)

/-- Lines 96-134: the new password and the new PIM, with the checks made on them in mode
`ChangePasswordAndKeyfiles`. -/
def selectNewPassword (env : Environment) (d : ChangePasswordDialog) (w : World) :
    World × Except Exit (VolumePassword × Int) :=
  if d.DialogMode == Mode.ChangePasswordAndKeyfiles then
    let newPassword := d.NewPasswordPanel.Password
    let newPim := d.NewPasswordPanel.VolumePim
    let w1 := w.emit (Effect.CheckPortability newPassword)
    if !env.Portable newPassword then
      (w1, Except.error (Exit.Throw ExceptionKind.UnportablePassword))
    else
      match checkPasswordSizeAndPim env newPassword newPim w1 with
      | (w2, false) => (w2, Except.error Exit.Return)
      | (w2, true) => (w2, Except.ok (newPassword, newPim))
  else
    (w, Except.ok (d.CurrentPasswordPanel.Password, d.CurrentPasswordPanel.VolumePim))

/-- Lines 136-140: the new keyfiles; `none` is the null pointer. -/
def selectNewKeyfiles (d : ChangePasswordDialog) : Option KeyfileList :=
  if d.DialogMode == Mode.ChangePasswordAndKeyfiles || d.DialogMode == Mode.ChangeKeyfiles then
    d.NewPasswordPanel.Keyfiles
  else if d.DialogMode != Mode.RemoveAllKeyfiles then
    d.CurrentPasswordPanel.Keyfiles
  else none

/-- The call `Core->SetFileOwner (path, owner)`: the owner changes when the call returns. -/
def SetFileOwner (env : Environment) (path : VolumePath) (owner : UserId) (w : World) :
    World × Option ExceptionKind :=
  let w1 := w.emit (Effect.SetFileOwner path owner)
  match env.SetFileOwnerError owner with
  | some e => (w1, some e)
  | none => ({ w1 with DeviceOwner := owner }, none)

/-- The call `Gui->ExecuteWaitThreadRoutine (this, &routine)` of line 167. -/
def ExecuteWaitThreadRoutine (env : Environment) (routine : ChangePasswordThreadRoutine)
    (w : World) : World × Option ExceptionKind :=
  (w.emit (Effect.ExecuteWaitThreadRoutine routine), env.RekeyError)

/-- Lines 164-166: the thread routine built from both panels and the selected new
credentials. -/
def makeRoutine (env : Environment) (d : ChangePasswordDialog) (newPassword : VolumePassword)
    (newPim : Int) (newKeyfiles : Option KeyfileList) : ChangePasswordThreadRoutine :=
  { m_volumePath := d.Path
    m_preserveTimestamps := env.PreserveTimestamps
    m_password := d.CurrentPasswordPanel.Password
    m_pim := d.CurrentPasswordPanel.VolumePim
    m_kdf := d.CurrentPasswordPanel.Pkcs5Kdf
    m_truecryptMode := d.CurrentPasswordPanel.TrueCryptMode
    m_keyfiles := d.CurrentPasswordPanel.Keyfiles
    m_newPassword := newPassword
    m_newPim := newPim
    m_newKeyfiles := newKeyfiles
    m_newPkcs5Kdf := d.NewPasswordPanel.Pkcs5Kdf
    m_wipeCount := d.NewPasswordPanel.HeaderWipeCount }

/-- Lines 146-168: the block that runs the thread routine.  With `TC_UNIX`, a process
without administrator privileges first takes ownership of a device; the block registered
by `finally_do_arg2` runs when the block is left, by falling through or by an exception,
and an exception raised inside it is not propagated. -/
def runRoutine (env : Environment) (d : ChangePasswordDialog)
    (routine : ChangePasswordThreadRoutine) (w : World) : World × Option ExceptionKind :=
  if env.TC_UNIX then
    if !env.HasAdminPrivileges && d.Path.IsDevice then
      let w1 := w.emit (Effect.GetOwner d.Path)
      match env.GetOwnerError with
      | some e => (w1, some e)
      | none =>
        let origDeviceOwner := w1.DeviceOwner
        match SetFileOwner env d.Path env.getuid w1 with
        | (w2, some e) => (w2, some e)
        | (w2, none) =>
          match ExecuteWaitThreadRoutine env routine w2 with
          | (w3, result) =>
            if origDeviceOwner.SystemId != UID_MINUS_ONE then
              ((SetFileOwner env d.Path origDeviceOwner w3).1, result)
            else (w3, result)
    else
      ExecuteWaitThreadRoutine env routine w
  else
    ExecuteWaitThreadRoutine env routine w

/-- Lines 170-189: the message shown after the routine has returned, and the end of the
dialog. -/
def showResult (d : ChangePasswordDialog) (w : World) : World × Option ExceptionKind :=
  match d.DialogMode with
  | Mode.ChangePasswordAndKeyfiles =>
    ((w.emit (Effect.ShowInfo LangKey.PASSWORD_CHANGED)).emit Effect.EndModalOK, none)
  | Mode.ChangeKeyfiles =>
    ((w.emit (Effect.ShowInfo LangKey.KEYFILE_CHANGED)).emit Effect.EndModalOK, none)
  | Mode.RemoveAllKeyfiles =>
    ((w.emit (Effect.ShowInfo LangKey.KEYFILE_CHANGED)).emit Effect.EndModalOK, none)
  | Mode.ChangePkcs5Prf =>
    ((w.emit (Effect.ShowInfo LangKey.PKCS5_PRF_CHANGED)).emit Effect.EndModalOK, none)
  | Mode.Invalid => (w, some ExceptionKind.ParameterIncorrect)

/-- Lines 88-189: the body of the `try` block; the second component is the exception
that leaves the block, if any. -/
def OnOKButtonClick.tryBlock (env : Environment) (d : ChangePasswordDialog) (w : World) :
    World × Option ExceptionKind :=
  if algoNotSupportedForTrueCryptMode d then
    ((w.emit (Effect.ShowWarning LangKey.ALGO_NOT_SUPPORTED_FOR_TRUECRYPT_MODE)).emit
      Effect.EventSkip, none)
  else
    match selectNewPassword env d w with
    | (w1, Except.error Exit.Return) => (w1, none)
    | (w1, Except.error (Exit.Throw e)) => (w1, some e)
    | (w1, Except.ok (newPassword, newPim)) =>
      let newKeyfiles := selectNewKeyfiles d
      let w2 := w1.emit (Effect.SetEnrichedByUserStatus false)
      let w3 := w2.emit (Effect.UserEnrichRandomPool (d.NewPasswordPanel.Pkcs5Kdf.map Pkcs5Kdf.Hash))
      let routine := makeRoutine env d newPassword newPim newKeyfiles
      match runRoutine env d routine w3 with
      | (w4, some e) => (w4, some e)
      | (w4, none) => showResult d w4

/-- Lines 191-204: the three `catch` clauses, tried in order. -/
def OnOKButtonClick.catchClauses (e : ExceptionKind) (w : World) : World :=
  match e with
  | ExceptionKind.UnportablePassword =>
    (w.emit (Effect.ShowErrorException ExceptionKind.UnportablePassword)).emit
      (Effect.SetFocusToPasswordTextCtrl Panel.New)
  | ExceptionKind.PasswordException =>
    (w.emit (Effect.ShowWarningException ExceptionKind.PasswordException)).emit
      (Effect.SetFocusToPasswordTextCtrl Panel.Current)
  | ExceptionKind.ParameterIncorrect =>
    w.emit (Effect.ShowErrorException ExceptionKind.ParameterIncorrect)
  | ExceptionKind.Other => w.emit (Effect.ShowErrorException ExceptionKind.Other)

/-- The handler `ChangePasswordDialog::OnOKButtonClick`. -/
def OnOKButtonClick (env : Environment) (d : ChangePasswordDialog) (w : World) : World :=
  if !d.OKButtonEnabled then w
  else
    match OnOKButtonClick.tryBlock env d w with
    | (w1, none) => w1
    | (w1, some e) => OnOKButtonClick.catchClauses e w1

/-- Whether a call is `SetFileOwner`. -/
def Effect.isSetFileOwner : Effect → Bool
  | Effect.SetFileOwner _ _ => true
  | _ => false

/-- Whether a call is `ExecuteWaitThreadRoutine`. -/
def Effect.isRoutine : Effect → Bool
  | Effect.ExecuteWaitThreadRoutine _ => true
  | _ => false

/-- Whether a call is `UserEnrichRandomPool`. -/
def Effect.isEnrich : Effect → Bool
  | Effect.UserEnrichRandomPool _ => true
  | _ => false

/-- In the log `t`, no call satisfying `q` is made before the first call satisfying `p`
(so none at all when no call satisfies `p`). -/
def noneBefore (q p : Effect → Bool) (t : List Effect) : Bool :=
  (t.takeWhile (fun e => !p e)).all (fun e => !q e)

/-! ## The constructor (lines 21-72) -/

/-- The calls made by the body of the constructor, in the order they are made.  A panel
is created with the password and keyfiles it is given and with the boolean arguments of
`VolumePasswordPanel (...)` in the order they are written on lines 55 and 59. -/
inductive ConstructorCall where
  | SetTitle (title : String)
  | NewVolumePasswordPanel (panel : Panel) (password : Option VolumePassword)
      (keyfiles : Option KeyfileList) (flags : List Bool)
  | UpdateEventConnect (panel : Panel)
  | SizerAdd (panel : Panel)
  | NewSizerShow (visible : Bool)
  | Layout
  | Fit
  | Center
  | OnPasswordPanelUpdate
  | SetFocusToPasswordTextCtrl (panel : Panel)
  deriving DecidableEq, Repr

/-- The local variables of lines 24-26. -/
structure EnabledFields where
  enableNewPassword : Bool
  enableNewKeyfiles : Bool
  enablePkcs5Prf : Bool
  deriving DecidableEq, Repr

/-- Lines 24-53: the three local variables after the `switch`, with the call made by the
arm taken, or the exception of the `default:` arm. -/
def ChangePasswordDialog.modeSwitch (mode : Mode) :
    List ConstructorCall × Except ExceptionKind EnabledFields :=
  let enabled : EnabledFields :=
    { enableNewPassword := false, enableNewKeyfiles := false, enablePkcs5Prf := false }
  match mode with
  | Mode.ChangePasswordAndKeyfiles =>
    ([ConstructorCall.SetTitle "Change Volume Password and Keyfiles"],
      Except.ok { enabled with
        enableNewPassword := true, enableNewKeyfiles := true, enablePkcs5Prf := true })
  | Mode.ChangeKeyfiles =>
    ([ConstructorCall.SetTitle "Add/Remove Keyfiles to/from Volume"],
      Except.ok { enabled with enableNewKeyfiles := true })
  | Mode.RemoveAllKeyfiles =>
    ([ConstructorCall.SetTitle "Remove All Keyfiles from Volume"], Except.ok enabled)
  | Mode.ChangePkcs5Prf =>
    ([ConstructorCall.SetTitle "Change Header Key Derivation Algorithm"],
      Except.ok { enabled with enablePkcs5Prf := true })
  | Mode.Invalid => ([], Except.error ExceptionKind.ParameterIncorrect)

/-- The body of the constructor `ChangePasswordDialog::ChangePasswordDialog`: the calls it
makes and the exception it throws, if any. -/
def ChangePasswordDialog.ctor (mode : Mode)
    (password : Option VolumePassword) (keyfiles : Option KeyfileList)
    (newPassword : Option VolumePassword) (newKeyfiles : Option KeyfileList) :
    List ConstructorCall × Option ExceptionKind :=
  match ChangePasswordDialog.modeSwitch mode with
  | (calls, Except.error e) => (calls, some e)
  | (calls, Except.ok enabled) =>
    let calls := calls ++
      [ConstructorCall.NewVolumePasswordPanel Panel.Current password keyfiles
        [false, false, true, true, false, true, true],
       ConstructorCall.UpdateEventConnect Panel.Current,
       ConstructorCall.SizerAdd Panel.Current,
       ConstructorCall.NewVolumePasswordPanel Panel.New newPassword newKeyfiles
        [true, false, enabled.enableNewPassword, enabled.enableNewKeyfiles,
          enabled.enableNewPassword, enabled.enablePkcs5Prf],
       ConstructorCall.UpdateEventConnect Panel.New,
       ConstructorCall.SizerAdd Panel.New]
    let calls :=
      if mode == Mode.RemoveAllKeyfiles then calls ++ [ConstructorCall.NewSizerShow false]
      else calls
    (calls ++ [ConstructorCall.Layout, ConstructorCall.Fit, ConstructorCall.Center,
      ConstructorCall.OnPasswordPanelUpdate,
      ConstructorCall.SetFocusToPasswordTextCtrl Panel.Current], none)

/-! ## Notions used in the statements and proofs -/

/-- Whether a call only addresses the operator or inspects the new password: messages
other than the result message, questions, focus changes, `event.Skip ()` and the
portability check. -/
def Effect.isInteraction : Effect → Bool
  | Effect.ShowWarning _ => true
  | Effect.ShowWarningException _ => true
  | Effect.ShowError _ => true
  | Effect.ShowErrorException _ => true
  | Effect.AskYesNo _ => true
  | Effect.EventSkip => true
  | Effect.CheckPortability _ => true
  | Effect.SetFocusToPasswordTextCtrl _ => true
  | Effect.SetFocusToPimTextCtrl _ => true
  | _ => false

/-- Whether a call reports the success of the change: `ShowInfo` and `EndModal (wxID_OK)`. -/
def Effect.isResult : Effect → Bool
  | Effect.ShowInfo _ => true
  | Effect.EndModalOK => true
  | _ => false

/-- The world `w2` continues `w1` by calls satisfying `q` only, the device owner
unchanged. -/
def World.continuedWith (q : Effect → Bool) (w1 w2 : World) : Prop :=
  ∃ t : List Effect, w2 = { Trace := w1.Trace ++ t, DeviceOwner := w1.DeviceOwner }
    ∧ ∀ e ∈ t, q e = true

/-- What the handler does once the block of lines 146-168 has been left with the given
world and exception: lines 170-204. -/
def OnOKButtonClick.afterRoutine (d : ChangePasswordDialog)
    (r : World × Option ExceptionKind) : World :=
  match r with
  | (w4, some e) => OnOKButtonClick.catchClauses e w4
  | (w4, none) =>
    match showResult d w4 with
    | (w5, none) => w5
    | (w5, some e) => OnOKButtonClick.catchClauses e w5

/-- Whether a call is made by the block of lines 146-168: `GetOwner`, `SetFileOwner` or
`ExecuteWaitThreadRoutine`. -/
def Effect.isDeviceOrRoutine : Effect → Bool
  | Effect.GetOwner _ => true
  | Effect.SetFileOwner _ _ => true
  | Effect.ExecuteWaitThreadRoutine _ => true
  | _ => false

/-- Whether a call is made by a catch clause of lines 191-204: the display of the
exception or a focus change to a password field. -/
def Effect.isReport : Effect → Bool
  | Effect.ShowWarningException _ => true
  | Effect.ShowErrorException _ => true
  | Effect.SetFocusToPasswordTextCtrl _ => true
  | _ => false

/-- Whether a call belongs to the enrichment of the random pool:
`SetEnrichedByUserStatus` or `UserEnrichRandomPool`. -/
def Effect.isEnrichment : Effect → Bool
  | Effect.SetEnrichedByUserStatus _ => true
  | Effect.UserEnrichRandomPool _ => true
  | _ => false

/-- Whether a call of the constructor creates a panel. -/
def ConstructorCall.isNewPanel : ConstructorCall → Bool
  | ConstructorCall.NewVolumePasswordPanel _ _ _ _ => true
  | _ => false

/-- The rules of the specification for "submission allowed", written from its words: the
base rule (not both the current password and the current keyfile list empty) and the
rule of the mode; a keyfile list is empty when it is absent or has no entry. -/
def specAllowed (d : ChangePasswordDialog) : Bool :=
  let isEmptyList : Option KeyfileList → Bool := fun k =>
    match k with
    | none => true
    | some l => l.length == 0
  let curPwEmpty := d.CurrentPasswordPanel.Password.Size == 0
  let curKfEmpty := isEmptyList d.CurrentPasswordPanel.Keyfiles
  let newPwEmpty := d.NewPasswordPanel.Password.Size == 0
  let newKfEmpty := isEmptyList d.NewPasswordPanel.Keyfiles
  let passwordsMatch := d.NewPasswordPanel.PasswordsMatch
  let baseRule := !(curPwEmpty && curKfEmpty)
  let modeRule :=
    match d.DialogMode with
    | Mode.RemoveAllKeyfiles => !curPwEmpty && !curKfEmpty
    | Mode.ChangeKeyfiles => !(newKfEmpty && (curPwEmpty || curKfEmpty))
    | Mode.ChangePasswordAndKeyfiles => !(newPwEmpty && newKfEmpty) && passwordsMatch
    | _ => true
  baseRule && modeRule

/-! ## Concrete inputs -/

/-- An environment of a `TC_UNIX` build with threshold 12: an unprivileged user 1000,
every password portable, every question answered with yes, no call failing. -/
def sampleEnv : Environment :=
  { WarningSizeThreshold := 12
    TC_UNIX := true
    Portable := fun _ => true
    HasAdminPrivileges := false
    getuid := { SystemId := 1000 }
    PreserveTimestamps := true
    AskYesNo := fun _ => true
    GetOwnerError := none
    SetFileOwnerError := fun _ => none
    RekeyError := none }

/-- A password of `n` bytes. -/
def passwordOfSize (n : Nat) : VolumePassword :=
  { PasswordData := List.replicate n 97 }

/-- A panel holding a one-byte password, no keyfiles and the key derivation function
`HMAC-SHA-512`. -/
def samplePanel : VolumePasswordPanel :=
  { Password := passwordOfSize 1
    Keyfiles := none
    Pkcs5Kdf := some { Name := "HMAC-SHA-512", Hash := { Name := "SHA-512" } }
    VolumePim := 0
    TrueCryptMode := false
    PasswordsMatch := true
    HeaderWipeCount := 3 }

/-- A dialog on the device `/dev/sdb1` in the given mode, with the given panels and an
enabled OK button. -/
def sampleDialog (mode : Mode) (current new : VolumePasswordPanel) : ChangePasswordDialog :=
  { DialogMode := mode
    Path := { Data := "/dev/sdb1", IsDevice := true }
    CurrentPasswordPanel := current
    NewPasswordPanel := new
    OKButtonEnabled := true }

/-- A world with an empty log in which the device belongs to the given user. -/
def freshWorld (owner : Nat) : World :=
  { Trace := [], DeviceOwner := { SystemId := owner } }

/-- A new panel with one keyfile and the key derivation function `HMAC-Whirlpool`. -/
def sampleNewPanel : VolumePasswordPanel :=
  { samplePanel with
    Password := passwordOfSize 0
    Keyfiles := some [{ Path := "k" }]
    Pkcs5Kdf := some { Name := "HMAC-Whirlpool", Hash := { Name := "Whirlpool" } } }

/-- A new panel with one keyfile and no key derivation function selected. -/
def sampleNewPanelNoKdf : VolumePasswordPanel :=
  { samplePanel with
    Password := passwordOfSize 0
    Keyfiles := some [{ Path := "k" }]
    Pkcs5Kdf := none }

/-- A current panel with one keyfile. -/
def sampleKeyfilePanel : VolumePasswordPanel :=
  { samplePanel with Keyfiles := some [{ Path := "k" }] }

/-! ## Theorems -/

/-- The enabled state of the OK button after `OnPasswordPanelUpdate` is the value of
`ok`. -/
theorem OnPasswordPanelUpdate_enabled (d : ChangePasswordDialog) (w : World) :
    (OnPasswordPanelUpdate d w).1.OKButtonEnabled = OnPasswordPanelUpdate.ok d := by
  unfold OnPasswordPanelUpdate
  split <;> rfl

/-- The test of lines 212 and 222 holds exactly for an absent or an empty list. -/
theorem keyfilesEmpty_iff (k : Option KeyfileList) :
    keyfilesEmpty k = true ↔ k = none ∨ k = some [] := by
  cases k with
  | none => simp [keyfilesEmpty]
  | some l => cases l <;> simp [keyfilesEmpty]

/-- The test of lines 212 and 222 fails exactly for a list with at least one entry. -/
theorem keyfilesEmpty_eq_false_iff (k : Option KeyfileList) :
    keyfilesEmpty k = false ↔ ∃ l, k = some l ∧ l ≠ [] := by
  cases k with
  | none => simp [keyfilesEmpty]
  | some l => cases l <;> simp [keyfilesEmpty]

/-- A password is empty exactly when its size is 0. -/
theorem IsEmpty_iff (p : VolumePassword) : p.IsEmpty = true ↔ p.Size = 0 := by
  simp [VolumePassword.IsEmpty]

/-! ### The shape of a submit -/

/-- Nothing added continues a world. -/
theorem continuedWith_refl (q : Effect → Bool) (w : World) : w.continuedWith q w :=
  ⟨[], by simp, by simp⟩

/-- One more call satisfying `q` continues a world. -/
theorem continuedWith_emit {q : Effect → Bool} {w1 w2 : World} (e : Effect)
    (h : w1.continuedWith q w2) (he : q e = true) : w1.continuedWith q (w2.emit e) := by
  obtain ⟨t, rfl, ht⟩ := h
  refine ⟨t ++ [e], by simp [World.emit], ?_⟩
  intro x hx
  rcases List.mem_append.1 hx with h1 | h1
  · exact ht x h1
  · simp at h1
    rw [h1]; exact he

/-- A weaker condition on the added calls. -/
theorem continuedWith_mono {q q2 : Effect → Bool} {w1 w2 : World}
    (h : w1.continuedWith q w2) (hq : ∀ e, q e = true → q2 e = true) :
    w1.continuedWith q2 w2 := by
  obtain ⟨t, rfl, ht⟩ := h
  exact ⟨t, rfl, fun e he => hq e (ht e he)⟩

/-- Lines 104-128 make interaction calls only. -/
theorem checkPasswordSizeAndPim_continued (env : Environment) (pw : VolumePassword) (p : Int)
    (w0 w : World) (h : w0.continuedWith Effect.isInteraction w) :
    w0.continuedWith Effect.isInteraction (checkPasswordSizeAndPim env pw p w).1 := by
  unfold checkPasswordSizeAndPim
  split_ifs <;>
    first
      | exact h
      | exact continuedWith_emit _ h rfl
      | exact continuedWith_emit _ (continuedWith_emit _ h rfl) rfl

/-- Lines 96-134 make interaction calls only. -/
theorem selectNewPassword_continued (env : Environment) (d : ChangePasswordDialog) (w : World) :
    w.continuedWith Effect.isInteraction (selectNewPassword env d w).1 := by
  unfold selectNewPassword
  by_cases hmode : (d.DialogMode == Mode.ChangePasswordAndKeyfiles) = true
  · by_cases hport : env.Portable d.NewPasswordPanel.Password = true
    · have h := checkPasswordSizeAndPim_continued env d.NewPasswordPanel.Password
        d.NewPasswordPanel.VolumePim w _ (continuedWith_emit
          (Effect.CheckPortability d.NewPasswordPanel.Password) (continuedWith_refl _ w) rfl)
      simp only [hmode, hport, if_true, Bool.not_true, Bool.false_eq_true, if_false]
      split <;> rename_i heq <;> rw [heq] at h <;> exact h
    · simp only [hmode, hport, if_true, Bool.not_eq_true] at *
      simp only [hport, Bool.not_false, if_true]
      exact continuedWith_emit _ (continuedWith_refl _ w) rfl
  · simp only [hmode, if_false, Bool.false_eq_true]
    exact continuedWith_refl _ w

/-- The new password and PIM selected by lines 96-134 when the handler goes on. -/
theorem selectNewPassword_ok (env : Environment) (d : ChangePasswordDialog) (w w1 : World)
    (pw : VolumePassword) (pim : Int)
    (h : selectNewPassword env d w = (w1, Except.ok (pw, pim))) :
    (d.DialogMode = Mode.ChangePasswordAndKeyfiles →
      pw = d.NewPasswordPanel.Password ∧ pim = d.NewPasswordPanel.VolumePim)
    ∧ (d.DialogMode ≠ Mode.ChangePasswordAndKeyfiles →
      pw = d.CurrentPasswordPanel.Password ∧ pim = d.CurrentPasswordPanel.VolumePim) := by
  unfold selectNewPassword at h
  by_cases hmode : d.DialogMode = Mode.ChangePasswordAndKeyfiles
  · refine ⟨fun _ => ?_, fun hn => absurd hmode hn⟩
    by_cases hport : env.Portable d.NewPasswordPanel.Password = true
    · simp only [hmode, hport, beq_self_eq_true, if_true, Bool.not_true, Bool.false_eq_true,
        if_false] at h
      split at h
      · simp at h
      · simp only [Prod.mk.injEq, Except.ok.injEq] at h
        exact ⟨h.2.1.symm, h.2.2.symm⟩
    · simp [hmode, hport] at h
  · refine ⟨fun hn => absurd hn hmode, fun _ => ?_⟩
    simp [hmode] at h
    exact ⟨h.2.1.symm, h.2.2.symm⟩

/-- The catch clauses make interaction calls only. -/
theorem catchClauses_continued (e : ExceptionKind) (w0 w : World)
    (h : w0.continuedWith Effect.isInteraction w) :
    w0.continuedWith Effect.isInteraction (OnOKButtonClick.catchClauses e w) := by
  cases e <;> unfold OnOKButtonClick.catchClauses <;>
    first
      | exact continuedWith_emit _ h rfl
      | exact continuedWith_emit _ (continuedWith_emit _ h rfl) rfl

/-- Lines 170-204 only add messages, focus changes and the end of the dialog. -/
theorem afterRoutine_continued (d : ChangePasswordDialog) (w : World)
    (res : Option ExceptionKind) :
    w.continuedWith (fun e => e.isInteraction || e.isResult)
      (OnOKButtonClick.afterRoutine d (w, res)) := by
  have hm : ∀ e : Effect, e.isInteraction = true → (e.isInteraction || e.isResult) = true := by
    intro e he; simp [he]
  cases res with
  | some e =>
    exact continuedWith_mono (catchClauses_continued e w w (continuedWith_refl _ w)) hm
  | none =>
    unfold OnOKButtonClick.afterRoutine showResult
    cases d.DialogMode
    case Invalid =>
      exact continuedWith_mono (catchClauses_continued _ w w (continuedWith_refl _ w)) hm
    all_goals exact continuedWith_emit _ (continuedWith_emit _ (continuedWith_refl _ w) rfl) rfl

/-- A submit with an enabled OK button, no TrueCrypt-mode rejection and a new password
selected by lines 96-134 goes on with lines 142-204. -/
theorem OnOKButtonClick_reached (env : Environment) (d : ChangePasswordDialog) (w w1 : World)
    (pw : VolumePassword) (pim : Int) (hen : d.OKButtonEnabled = true)
    (halgo : algoNotSupportedForTrueCryptMode d = false)
    (hs : selectNewPassword env d w = (w1, Except.ok (pw, pim))) :
    OnOKButtonClick env d w
      = OnOKButtonClick.afterRoutine d
          (runRoutine env d (makeRoutine env d pw pim (selectNewKeyfiles d))
            ((w1.emit (Effect.SetEnrichedByUserStatus false)).emit
              (Effect.UserEnrichRandomPool (d.NewPasswordPanel.Pkcs5Kdf.map Pkcs5Kdf.Hash)))) := by
  simp only [OnOKButtonClick, OnOKButtonClick.tryBlock, hen, halgo, hs, Bool.not_true,
    Bool.false_eq_true, if_false, OnOKButtonClick.afterRoutine]
  rcases runRoutine env d (makeRoutine env d pw pim (selectNewKeyfiles d))
    ((w1.emit (Effect.SetEnrichedByUserStatus false)).emit
      (Effect.UserEnrichRandomPool (d.NewPasswordPanel.Pkcs5Kdf.map Pkcs5Kdf.Hash)))
    with ⟨w4, _ | e⟩
  · simp only []
  · rfl

/-- The two ways a submit runs: either it stops before the enrichment request, having made
interaction calls only, or lines 96-134 select a new password and PIM and the handler
goes on with the enrichment request, the block of lines 146-168 and lines 170-204. -/
theorem OnOKButtonClick_shape (env : Environment) (d : ChangePasswordDialog) (w : World) :
    w.continuedWith Effect.isInteraction (OnOKButtonClick env d w)
    ∨ ∃ (w1 : World) (pw : VolumePassword) (pim : Int),
        w.continuedWith Effect.isInteraction w1
        ∧ selectNewPassword env d w = (w1, Except.ok (pw, pim))
        ∧ d.OKButtonEnabled = true
        ∧ algoNotSupportedForTrueCryptMode d = false
        ∧ OnOKButtonClick env d w
          = OnOKButtonClick.afterRoutine d
              (runRoutine env d (makeRoutine env d pw pim (selectNewKeyfiles d))
                ((w1.emit (Effect.SetEnrichedByUserStatus false)).emit
                  (Effect.UserEnrichRandomPool (d.NewPasswordPanel.Pkcs5Kdf.map Pkcs5Kdf.Hash)))) := by
  cases hen : d.OKButtonEnabled
  · left
    simp only [OnOKButtonClick, hen, Bool.not_false, if_true]
    exact continuedWith_refl _ w
  cases halgo : algoNotSupportedForTrueCryptMode d
  · have hsel := selectNewPassword_continued env d w
    rcases hs : selectNewPassword env d w with ⟨w1, x | ⟨pw, pim⟩⟩
    · left
      rw [hs] at hsel
      cases x with
      | Return =>
        simp only [OnOKButtonClick, OnOKButtonClick.tryBlock, hen, halgo, hs, Bool.not_true,
          Bool.false_eq_true, if_false]
        exact hsel
      | Throw e =>
        simp only [OnOKButtonClick, OnOKButtonClick.tryBlock, hen, halgo, hs, Bool.not_true,
          Bool.false_eq_true, if_false]
        exact catchClauses_continued e w w1 hsel
    · right
      rw [hs] at hsel
      exact ⟨w1, pw, pim, hsel, rfl, rfl, rfl, OnOKButtonClick_reached env d w w1 pw pim hen halgo hs⟩
  · left
    simp only [OnOKButtonClick, OnOKButtonClick.tryBlock, hen, halgo, Bool.not_true,
      Bool.false_eq_true, if_false, if_true]
    exact continuedWith_emit _ (continuedWith_emit _ (continuedWith_refl _ w) rfl) rfl

/-- The block of lines 146-168, case by case. -/
theorem runRoutine_eq (env : Environment) (d : ChangePasswordDialog)
    (routine : ChangePasswordThreadRoutine) (w : World) :
    runRoutine env d routine w
      = if env.TC_UNIX = true ∧ env.HasAdminPrivileges = false ∧ d.Path.IsDevice = true then
          match env.GetOwnerError with
          | some e => ({ w with Trace := w.Trace ++ [Effect.GetOwner d.Path] }, some e)
          | none =>
            match env.SetFileOwnerError env.getuid with
            | some e =>
              ({ w with Trace := w.Trace ++ [Effect.GetOwner d.Path,
                  Effect.SetFileOwner d.Path env.getuid] }, some e)
            | none =>
              if w.DeviceOwner.SystemId = UID_MINUS_ONE then
                ({ Trace := w.Trace ++ [Effect.GetOwner d.Path,
                    Effect.SetFileOwner d.Path env.getuid,
                    Effect.ExecuteWaitThreadRoutine routine]
                   DeviceOwner := env.getuid }, env.RekeyError)
              else
                ({ Trace := w.Trace ++ [Effect.GetOwner d.Path,
                    Effect.SetFileOwner d.Path env.getuid,
                    Effect.ExecuteWaitThreadRoutine routine,
                    Effect.SetFileOwner d.Path w.DeviceOwner]
                   DeviceOwner :=
                    if env.SetFileOwnerError w.DeviceOwner = none then w.DeviceOwner
                    else env.getuid }, env.RekeyError)
        else
          ({ w with Trace := w.Trace ++ [Effect.ExecuteWaitThreadRoutine routine] },
            env.RekeyError) := by
  unfold runRoutine
  cases hu : env.TC_UNIX <;> cases ha : env.HasAdminPrivileges <;> cases hd : d.Path.IsDevice <;>
    simp [ExecuteWaitThreadRoutine, World.emit]
  cases hg : env.GetOwnerError with
  | some e => simp
  | none =>
    cases hs : env.SetFileOwnerError env.getuid with
    | some e => simp [SetFileOwner, hs, World.emit]
    | none =>
      by_cases hp : w.DeviceOwner.SystemId = UID_MINUS_ONE
      · simp [SetFileOwner, hs, World.emit, hp]
      · cases hr : env.SetFileOwnerError w.DeviceOwner <;>
          simp [SetFileOwner, hs, World.emit, hp, hr]

/-- Calls satisfying `q` are dropped by a filter that rejects them. -/
theorem filter_eq_nil_of_all {q p : Effect → Bool} {t : List Effect}
    (ht : ∀ e ∈ t, q e = true) (hqp : ∀ e, q e = true → p e = false) : t.filter p = [] := by
  rw [List.filter_eq_nil_iff]
  intro a ha
  simp [hqp a (ht a ha)]

/-- A call that does not satisfy `q` is not among calls that all satisfy `q`. -/
theorem not_mem_of_all {q : Effect → Bool} {t : List Effect} {x : Effect}
    (ht : ∀ e ∈ t, q e = true) (hx : q x = false) : x ∉ t := by
  intro hmem
  rw [ht x hmem] at hx
  exact Bool.noConfusion hx

/-- The log and the device owner of a submit that goes on after lines 96-134: the calls
`t1` of lines 96-134, the two enrichment calls, the block of lines 146-168, and the calls
`t2` of lines 170-204. -/
theorem OnOKButtonClick_cases (env : Environment) (d : ChangePasswordDialog) (w : World) :
    w.continuedWith Effect.isInteraction (OnOKButtonClick env d w)
    ∨ ∃ (t1 : List Effect) (pw : VolumePassword) (pim : Int) (t2 : List Effect),
        (∀ e ∈ t1, e.isInteraction = true)
        ∧ (∀ e ∈ t2, (e.isInteraction || e.isResult) = true)
        ∧ selectNewPassword env d w
          = ({ Trace := w.Trace ++ t1, DeviceOwner := w.DeviceOwner }, Except.ok (pw, pim))
        ∧ d.OKButtonEnabled = true
        ∧ algoNotSupportedForTrueCryptMode d = false
        ∧ OnOKButtonClick env d w
          = { Trace := (runRoutine env d (makeRoutine env d pw pim (selectNewKeyfiles d))
                { Trace := w.Trace ++ (t1 ++ [Effect.SetEnrichedByUserStatus false,
                    Effect.UserEnrichRandomPool
                      (d.NewPasswordPanel.Pkcs5Kdf.map Pkcs5Kdf.Hash)])
                  DeviceOwner := w.DeviceOwner }).1.Trace ++ t2
              DeviceOwner := (runRoutine env d (makeRoutine env d pw pim (selectNewKeyfiles d))
                { Trace := w.Trace ++ (t1 ++ [Effect.SetEnrichedByUserStatus false,
                    Effect.UserEnrichRandomPool
                      (d.NewPasswordPanel.Pkcs5Kdf.map Pkcs5Kdf.Hash)])
                  DeviceOwner := w.DeviceOwner }).1.DeviceOwner } := by
  rcases OnOKButtonClick_shape env d w with hstop | ⟨w1, pw, pim, hc, hsel, hen, halgo, heq⟩
  · exact Or.inl hstop
  · right
    obtain ⟨t1, rfl, ht1⟩ := hc
    have hw : (({ Trace := w.Trace ++ t1, DeviceOwner := w.DeviceOwner } : World).emit
          (Effect.SetEnrichedByUserStatus false)).emit
          (Effect.UserEnrichRandomPool (d.NewPasswordPanel.Pkcs5Kdf.map Pkcs5Kdf.Hash))
        = { Trace := w.Trace ++ (t1 ++ [Effect.SetEnrichedByUserStatus false,
              Effect.UserEnrichRandomPool (d.NewPasswordPanel.Pkcs5Kdf.map Pkcs5Kdf.Hash)])
            DeviceOwner := w.DeviceOwner } := by
      simp [World.emit]
    rw [hw] at heq
    obtain ⟨t2, h2, ht2⟩ := afterRoutine_continued d
      (runRoutine env d (makeRoutine env d pw pim (selectNewKeyfiles d))
        { Trace := w.Trace ++ (t1 ++ [Effect.SetEnrichedByUserStatus false,
            Effect.UserEnrichRandomPool (d.NewPasswordPanel.Pkcs5Kdf.map Pkcs5Kdf.Hash)])
          DeviceOwner := w.DeviceOwner }).1
      (runRoutine env d (makeRoutine env d pw pim (selectNewKeyfiles d))
        { Trace := w.Trace ++ (t1 ++ [Effect.SetEnrichedByUserStatus false,
            Effect.UserEnrichRandomPool (d.NewPasswordPanel.Pkcs5Kdf.map Pkcs5Kdf.Hash)])
          DeviceOwner := w.DeviceOwner }).2
    exact ⟨t1, pw, pim, t2, ht1, ht2, hsel, hen, halgo, heq.trans h2⟩

/-- The block of lines 146-168 when no ownership is taken. -/
theorem runRoutine_plain (env : Environment) (d : ChangePasswordDialog)
    (routine : ChangePasswordThreadRoutine) (w : World)
    (h : ¬ (env.TC_UNIX = true ∧ env.HasAdminPrivileges = false ∧ d.Path.IsDevice = true)) :
    runRoutine env d routine w
      = ({ Trace := w.Trace ++ [Effect.ExecuteWaitThreadRoutine routine]
           DeviceOwner := w.DeviceOwner }, env.RekeyError) := by
  rw [runRoutine_eq, if_neg h]

/-- The block of lines 146-168 when `GetOwner` fails. -/
theorem runRoutine_getOwner_error (env : Environment) (d : ChangePasswordDialog)
    (routine : ChangePasswordThreadRoutine) (w : World) (e : ExceptionKind)
    (h : env.TC_UNIX = true ∧ env.HasAdminPrivileges = false ∧ d.Path.IsDevice = true)
    (hg : env.GetOwnerError = some e) :
    runRoutine env d routine w
      = ({ Trace := w.Trace ++ [Effect.GetOwner d.Path], DeviceOwner := w.DeviceOwner },
          some e) := by
  rw [runRoutine_eq, if_pos h, hg]

/-- The block of lines 146-168 when taking ownership fails. -/
theorem runRoutine_acquire_error (env : Environment) (d : ChangePasswordDialog)
    (routine : ChangePasswordThreadRoutine) (w : World) (e : ExceptionKind)
    (h : env.TC_UNIX = true ∧ env.HasAdminPrivileges = false ∧ d.Path.IsDevice = true)
    (hg : env.GetOwnerError = none) (hs : env.SetFileOwnerError env.getuid = some e) :
    runRoutine env d routine w
      = ({ Trace := w.Trace ++ [Effect.GetOwner d.Path, Effect.SetFileOwner d.Path env.getuid]
           DeviceOwner := w.DeviceOwner }, some e) := by
  rw [runRoutine_eq, if_pos h, hg, hs]

/-- The block of lines 146-168 when ownership is taken from the owner `(uid_t) -1`. -/
theorem runRoutine_minus_one (env : Environment) (d : ChangePasswordDialog)
    (routine : ChangePasswordThreadRoutine) (w : World)
    (h : env.TC_UNIX = true ∧ env.HasAdminPrivileges = false ∧ d.Path.IsDevice = true)
    (hg : env.GetOwnerError = none) (hs : env.SetFileOwnerError env.getuid = none)
    (hp : w.DeviceOwner.SystemId = UID_MINUS_ONE) :
    runRoutine env d routine w
      = ({ Trace := w.Trace ++ [Effect.GetOwner d.Path, Effect.SetFileOwner d.Path env.getuid,
             Effect.ExecuteWaitThreadRoutine routine]
           DeviceOwner := env.getuid }, env.RekeyError) := by
  rw [runRoutine_eq, if_pos h, hg, hs]
  simp only [if_pos hp]

/-- The block of lines 146-168 when ownership is taken from another owner. -/
theorem runRoutine_restore (env : Environment) (d : ChangePasswordDialog)
    (routine : ChangePasswordThreadRoutine) (w : World)
    (h : env.TC_UNIX = true ∧ env.HasAdminPrivileges = false ∧ d.Path.IsDevice = true)
    (hg : env.GetOwnerError = none) (hs : env.SetFileOwnerError env.getuid = none)
    (hp : w.DeviceOwner.SystemId ≠ UID_MINUS_ONE) :
    runRoutine env d routine w
      = ({ Trace := w.Trace ++ [Effect.GetOwner d.Path, Effect.SetFileOwner d.Path env.getuid,
             Effect.ExecuteWaitThreadRoutine routine, Effect.SetFileOwner d.Path w.DeviceOwner]
           DeviceOwner :=
             if env.SetFileOwnerError w.DeviceOwner = none then w.DeviceOwner else env.getuid },
          env.RekeyError) := by
  rw [runRoutine_eq, if_pos h, hg, hs]
  simp only [if_neg hp]

/-- Interaction calls are neither ownership calls nor the routine. -/
theorem interaction_not_owner_routine (e : Effect) (h : e.isInteraction = true) :
    (e.isSetFileOwner || e.isRoutine) = false := by
  cases e <;> first | rfl | exact Bool.noConfusion h

/-- Interaction and result calls are neither ownership calls nor the routine. -/
theorem result_not_owner_routine (e : Effect) (h : (e.isInteraction || e.isResult) = true) :
    (e.isSetFileOwner || e.isRoutine) = false := by
  cases e <;> first | rfl | exact Bool.noConfusion h


/-- No call satisfying `q` precedes the first `p` when no call satisfies `q` at all. -/
theorem noneBefore_of_all (q p : Effect → Bool) (t : List Effect)
    (h : ∀ e ∈ t, q e = false) : noneBefore q p t = true := by
  induction t with
  | nil => rfl
  | cons a t ih =>
    have ha : q a = false := h a (List.mem_cons_self a t)
    have ht : ∀ e ∈ t, q e = false := fun e he => h e (List.mem_cons_of_mem a he)
    have ih2 := ih ht
    unfold noneBefore at ih2 ⊢
    rw [List.takeWhile_cons]
    cases hp : p a <;> simp [ha]
    simpa using ih2

/-- No call satisfying `q` precedes the first `p` when a call satisfying `p` follows calls
that do not satisfy `q`. -/
theorem noneBefore_split (q p : Effect → Bool) (pre : List Effect) (x : Effect)
    (rest : List Effect) (h : ∀ e ∈ pre, q e = false) (hx : p x = true) :
    noneBefore q p (pre ++ x :: rest) = true := by
  induction pre with
  | nil => simp [noneBefore, List.takeWhile_cons, hx]
  | cons a t ih =>
    have ha : q a = false := h a (List.mem_cons_self a t)
    have ht : ∀ e ∈ t, q e = false := fun e he => h e (List.mem_cons_of_mem a he)
    have ih2 := ih ht
    unfold noneBefore at ih2 ⊢
    rw [List.cons_append, List.takeWhile_cons]
    cases hp : p a <;> simp [ha]
    simpa using ih2

/-- Interaction calls are not the routine. -/
theorem interaction_not_routine (e : Effect) (h : e.isInteraction = true) :
    e.isRoutine = false := by
  cases e <;> first | rfl | exact Bool.noConfusion h

/-- Interaction calls are not ownership calls. -/
theorem interaction_not_owner (e : Effect) (h : e.isInteraction = true) :
    e.isSetFileOwner = false := by
  cases e <;> first | rfl | exact Bool.noConfusion h

/-- Interaction and result calls are not the routine. -/
theorem result_not_routine (e : Effect) (h : (e.isInteraction || e.isResult) = true) :
    e.isRoutine = false := by
  cases e <;> first | rfl | exact Bool.noConfusion h

/-- Calls that are not the routine, around a middle part without the routine. -/
theorem no_routine_append (t1 mid t2 : List Effect) (h1 : ∀ e ∈ t1, e.isRoutine = false)
    (hm : ∀ e ∈ mid, e.isRoutine = false) (h2 : ∀ e ∈ t2, e.isRoutine = false) :
    ∀ e ∈ t1 ++ (mid ++ t2), e.isRoutine = false := by
  intro e he
  rcases List.mem_append.1 he with h | h
  · exact h1 e h
  · rcases List.mem_append.1 h with h | h
    · exact hm e h
    · exact h2 e h


/-- The routine run by the block of lines 146-168 is the one it is given. -/
theorem runRoutine_mem_routine (env : Environment) (d : ChangePasswordDialog)
    (routine r : ChangePasswordThreadRoutine) (w : World)
    (h : Effect.ExecuteWaitThreadRoutine r ∈ (runRoutine env d routine w).1.Trace) :
    Effect.ExecuteWaitThreadRoutine r ∈ w.Trace ∨ r = routine := by
  by_cases hc : env.TC_UNIX = true ∧ env.HasAdminPrivileges = false ∧ d.Path.IsDevice = true
  · cases hg : env.GetOwnerError with
    | some e =>
      rw [runRoutine_getOwner_error env d routine w e hc hg] at h
      simp at h; exact Or.inl h
    | none =>
      cases hs : env.SetFileOwnerError env.getuid with
      | some e =>
        rw [runRoutine_acquire_error env d routine w e hc hg hs] at h
        simp at h; exact Or.inl h
      | none =>
        by_cases hp : w.DeviceOwner.SystemId = UID_MINUS_ONE
        · rw [runRoutine_minus_one env d routine w hc hg hs hp] at h
          simp at h; exact h
        · rw [runRoutine_restore env d routine w hc hg hs hp] at h
          simp at h; exact h
  · rw [runRoutine_plain env d routine w hc] at h
    simp at h; exact h

/-- The block of lines 146-168 runs the routine unless taking ownership fails. -/
theorem runRoutine_runs (env : Environment) (d : ChangePasswordDialog)
    (routine : ChangePasswordThreadRoutine) (w : World)
    (h : env.TC_UNIX = true ∧ env.HasAdminPrivileges = false ∧ d.Path.IsDevice = true →
      env.GetOwnerError = none ∧ env.SetFileOwnerError env.getuid = none) :
    Effect.ExecuteWaitThreadRoutine routine ∈ (runRoutine env d routine w).1.Trace := by
  by_cases hc : env.TC_UNIX = true ∧ env.HasAdminPrivileges = false ∧ d.Path.IsDevice = true
  · obtain ⟨hg, hs⟩ := h hc
    by_cases hp : w.DeviceOwner.SystemId = UID_MINUS_ONE
    · rw [runRoutine_minus_one env d routine w hc hg hs hp]; simp
    · rw [runRoutine_restore env d routine w hc hg hs hp]; simp
  · rw [runRoutine_plain env d routine w hc]; simp

/-- The dialog after `OnPasswordPanelUpdate`: only the state of the OK button changes. -/
theorem OnPasswordPanelUpdate_fst (d : ChangePasswordDialog) (w : World) :
    (OnPasswordPanelUpdate d w).1 = { d with OKButtonEnabled := OnPasswordPanelUpdate.ok d } := by
  unfold OnPasswordPanelUpdate
  split <;> rfl

/-- What the block of lines 146-168 adds to the log, and how it is left: it adds calls
to `GetOwner`, `SetFileOwner` and the routine only; the routine it runs is the one it is
given, and then the block is left the way the routine is left; when the routine is not
run the block is left by an exception; when no ownership is taken the routine is the
only call and the device owner is unchanged. -/
theorem runRoutine_parts (env : Environment) (d : ChangePasswordDialog)
    (routine : ChangePasswordThreadRoutine) (w : World) :
    ∃ (tr : List Effect) (owner : UserId) (res : Option ExceptionKind),
      runRoutine env d routine w = ({ Trace := w.Trace ++ tr, DeviceOwner := owner }, res)
      ∧ (∀ e ∈ tr, e.isDeviceOrRoutine = true)
      ∧ (∀ r, Effect.ExecuteWaitThreadRoutine r ∈ tr → r = routine ∧ res = env.RekeyError)
      ∧ (Effect.ExecuteWaitThreadRoutine routine ∉ tr → ∃ e, res = some e)
      ∧ (¬ (env.TC_UNIX = true ∧ env.HasAdminPrivileges = false ∧ d.Path.IsDevice = true) →
          tr = [Effect.ExecuteWaitThreadRoutine routine] ∧ owner = w.DeviceOwner) := by
  by_cases hc : env.TC_UNIX = true ∧ env.HasAdminPrivileges = false ∧ d.Path.IsDevice = true
  · cases hg : env.GetOwnerError with
    | some e =>
      refine ⟨_, _, _, runRoutine_getOwner_error env d routine w e hc hg, ?_, ?_, ?_, ?_⟩
      · intro x hx; rw [List.mem_singleton.1 hx]; rfl
      · intro r hr; simp at hr
      · intro _; exact ⟨e, rfl⟩
      · intro hn; exact absurd hc hn
    | none =>
      cases hs : env.SetFileOwnerError env.getuid with
      | some e =>
        refine ⟨_, _, _, runRoutine_acquire_error env d routine w e hc hg hs, ?_, ?_, ?_, ?_⟩
        · intro x hx
          simp only [List.mem_cons, List.mem_singleton, List.not_mem_nil, or_false] at hx
          rcases hx with h | h <;> rw [h] <;> rfl
        · intro r hr; simp at hr
        · intro _; exact ⟨e, rfl⟩
        · intro hn; exact absurd hc hn
      | none =>
        by_cases hp : w.DeviceOwner.SystemId = UID_MINUS_ONE
        · refine ⟨_, _, _, runRoutine_minus_one env d routine w hc hg hs hp, ?_, ?_, ?_, ?_⟩
          · intro x hx
            simp only [List.mem_cons, List.mem_singleton, List.not_mem_nil, or_false] at hx
            rcases hx with h | h | h <;> rw [h] <;> rfl
          · intro r hr
            simp at hr
            exact ⟨hr, rfl⟩
          · intro hn; simp at hn
          · intro hn; exact absurd hc hn
        · refine ⟨_, _, _, runRoutine_restore env d routine w hc hg hs hp, ?_, ?_, ?_, ?_⟩
          · intro x hx
            simp only [List.mem_cons, List.mem_singleton, List.not_mem_nil, or_false] at hx
            rcases hx with h | h | h | h <;> rw [h] <;> rfl
          · intro r hr
            simp at hr
            exact ⟨hr, rfl⟩
          · intro hn; simp at hn
          · intro hn; exact absurd hc hn
  · refine ⟨_, _, _, runRoutine_plain env d routine w hc, ?_, ?_, ?_, ?_⟩
    · intro x hx; rw [List.mem_singleton.1 hx]; rfl
    · intro r hr
      simp at hr
      exact ⟨hr, rfl⟩
    · intro hn; simp at hn
    · intro _; exact ⟨rfl, rfl⟩

/-- Lines 170-204 after an exception: the catch clauses. -/
theorem afterRoutine_some (d : ChangePasswordDialog) (w : World) (e : ExceptionKind) :
    OnOKButtonClick.afterRoutine d (w, some e) = OnOKButtonClick.catchClauses e w := rfl

/-- Lines 170-189 after the routine has returned, mode by mode. -/
theorem afterRoutine_none (d : ChangePasswordDialog) (w : World) :
    (d.DialogMode = Mode.ChangePasswordAndKeyfiles →
      OnOKButtonClick.afterRoutine d (w, none)
        = { Trace := w.Trace ++ [Effect.ShowInfo LangKey.PASSWORD_CHANGED, Effect.EndModalOK]
            DeviceOwner := w.DeviceOwner })
    ∧ (d.DialogMode = Mode.ChangeKeyfiles →
      OnOKButtonClick.afterRoutine d (w, none)
        = { Trace := w.Trace ++ [Effect.ShowInfo LangKey.KEYFILE_CHANGED, Effect.EndModalOK]
            DeviceOwner := w.DeviceOwner })
    ∧ (d.DialogMode = Mode.RemoveAllKeyfiles →
      OnOKButtonClick.afterRoutine d (w, none)
        = { Trace := w.Trace ++ [Effect.ShowInfo LangKey.KEYFILE_CHANGED, Effect.EndModalOK]
            DeviceOwner := w.DeviceOwner })
    ∧ (d.DialogMode = Mode.ChangePkcs5Prf →
      OnOKButtonClick.afterRoutine d (w, none)
        = { Trace := w.Trace ++ [Effect.ShowInfo LangKey.PKCS5_PRF_CHANGED, Effect.EndModalOK]
            DeviceOwner := w.DeviceOwner })
    ∧ (d.DialogMode = Mode.Invalid →
      OnOKButtonClick.afterRoutine d (w, none)
        = { Trace := w.Trace ++ [Effect.ShowErrorException ExceptionKind.ParameterIncorrect]
            DeviceOwner := w.DeviceOwner }) := by
  refine ⟨?_, ?_, ?_, ?_, ?_⟩ <;> intro hm <;>
    simp [OnOKButtonClick.afterRoutine, showResult, hm, World.emit,
      OnOKButtonClick.catchClauses]

/-- The calls the catch clauses add, kind by kind. -/
theorem catchClauses_eq (w : World) :
    OnOKButtonClick.catchClauses ExceptionKind.UnportablePassword w
      = { Trace := w.Trace ++ [Effect.ShowErrorException ExceptionKind.UnportablePassword,
            Effect.SetFocusToPasswordTextCtrl Panel.New]
          DeviceOwner := w.DeviceOwner }
    ∧ OnOKButtonClick.catchClauses ExceptionKind.PasswordException w
      = { Trace := w.Trace ++ [Effect.ShowWarningException ExceptionKind.PasswordException,
            Effect.SetFocusToPasswordTextCtrl Panel.Current]
          DeviceOwner := w.DeviceOwner }
    ∧ OnOKButtonClick.catchClauses ExceptionKind.ParameterIncorrect w
      = { Trace := w.Trace ++ [Effect.ShowErrorException ExceptionKind.ParameterIncorrect]
          DeviceOwner := w.DeviceOwner }
    ∧ OnOKButtonClick.catchClauses ExceptionKind.Other w
      = { Trace := w.Trace ++ [Effect.ShowErrorException ExceptionKind.Other]
          DeviceOwner := w.DeviceOwner } := by
  refine ⟨?_, ?_, ?_, ?_⟩ <;> simp [OnOKButtonClick.catchClauses, World.emit]

/-- A submit either stops before the enrichment request, having made interaction calls
only, or makes the calls `t1` of lines 96-134, the two enrichment calls and the calls
`tr` of the block of lines 146-168, and then goes on with lines 170-204. -/
theorem OnOKButtonClick_run (env : Environment) (d : ChangePasswordDialog) (w : World) :
    w.continuedWith Effect.isInteraction (OnOKButtonClick env d w)
    ∨ ∃ (t1 : List Effect) (pw : VolumePassword) (pim : Int) (tr : List Effect)
        (owner : UserId) (res : Option ExceptionKind),
        (∀ e ∈ t1, e.isInteraction = true)
        ∧ (∀ e ∈ tr, e.isDeviceOrRoutine = true)
        ∧ selectNewPassword env d w
          = ({ Trace := w.Trace ++ t1, DeviceOwner := w.DeviceOwner }, Except.ok (pw, pim))
        ∧ d.OKButtonEnabled = true
        ∧ algoNotSupportedForTrueCryptMode d = false
        ∧ OnOKButtonClick env d w
          = OnOKButtonClick.afterRoutine d
              ({ Trace := w.Trace ++ (t1 ++ [Effect.SetEnrichedByUserStatus false,
                    Effect.UserEnrichRandomPool
                      (d.NewPasswordPanel.Pkcs5Kdf.map Pkcs5Kdf.Hash)]) ++ tr
                 DeviceOwner := owner }, res)
        ∧ (∀ r, Effect.ExecuteWaitThreadRoutine r ∈ tr →
            r = makeRoutine env d pw pim (selectNewKeyfiles d) ∧ res = env.RekeyError)
        ∧ (Effect.ExecuteWaitThreadRoutine (makeRoutine env d pw pim (selectNewKeyfiles d)) ∉ tr →
            ∃ e, res = some e)
        ∧ (¬ (env.TC_UNIX = true ∧ env.HasAdminPrivileges = false ∧ d.Path.IsDevice = true) →
            tr = [Effect.ExecuteWaitThreadRoutine (makeRoutine env d pw pim (selectNewKeyfiles d))]
            ∧ owner = w.DeviceOwner) := by
  rcases OnOKButtonClick_shape env d w with hstop | ⟨w1, pw, pim, hc, hsel, hen, halgo, heq⟩
  · exact Or.inl hstop
  · right
    obtain ⟨t1, rfl, ht1⟩ := hc
    have hw : (({ Trace := w.Trace ++ t1, DeviceOwner := w.DeviceOwner } : World).emit
          (Effect.SetEnrichedByUserStatus false)).emit
          (Effect.UserEnrichRandomPool (d.NewPasswordPanel.Pkcs5Kdf.map Pkcs5Kdf.Hash))
        = { Trace := w.Trace ++ (t1 ++ [Effect.SetEnrichedByUserStatus false,
              Effect.UserEnrichRandomPool (d.NewPasswordPanel.Pkcs5Kdf.map Pkcs5Kdf.Hash)])
            DeviceOwner := w.DeviceOwner } := by
      simp [World.emit]
    rw [hw] at heq
    obtain ⟨tr, owner, res, hrun, htr, hr1, hr2, hr3⟩ := runRoutine_parts env d
      (makeRoutine env d pw pim (selectNewKeyfiles d))
      { Trace := w.Trace ++ (t1 ++ [Effect.SetEnrichedByUserStatus false,
          Effect.UserEnrichRandomPool (d.NewPasswordPanel.Pkcs5Kdf.map Pkcs5Kdf.Hash)])
        DeviceOwner := w.DeviceOwner }
    rw [hrun] at heq
    exact ⟨t1, pw, pim, tr, owner, res, ht1, htr, hsel, hen, halgo, heq, hr1, hr2, hr3⟩

/-- A submit whose log holds a routine call: lines 96-134 selected a new password and PIM
with the calls `t1`, the routine is the one built from them, it was run by the block of
lines 146-168 (calls `tr`), and lines 170-204 follow according to the outcome of the
routine. -/
theorem submit_with_routine (env : Environment) (d : ChangePasswordDialog) (prior : UserId)
    (routine : ChangePasswordThreadRoutine)
    (h : Effect.ExecuteWaitThreadRoutine routine
      ∈ (OnOKButtonClick env d { Trace := [], DeviceOwner := prior }).Trace) :
    ∃ (t1 : List Effect) (pw : VolumePassword) (pim : Int) (tr : List Effect) (owner : UserId),
      (∀ e ∈ t1, e.isInteraction = true)
      ∧ (∀ e ∈ tr, e.isDeviceOrRoutine = true)
      ∧ selectNewPassword env d { Trace := [], DeviceOwner := prior }
        = ({ Trace := t1, DeviceOwner := prior }, Except.ok (pw, pim))
      ∧ d.OKButtonEnabled = true
      ∧ algoNotSupportedForTrueCryptMode d = false
      ∧ routine = makeRoutine env d pw pim (selectNewKeyfiles d)
      ∧ Effect.ExecuteWaitThreadRoutine routine ∈ tr
      ∧ OnOKButtonClick env d { Trace := [], DeviceOwner := prior }
        = OnOKButtonClick.afterRoutine d
            ({ Trace := t1 ++ [Effect.SetEnrichedByUserStatus false,
                  Effect.UserEnrichRandomPool
                    (d.NewPasswordPanel.Pkcs5Kdf.map Pkcs5Kdf.Hash)] ++ tr
               DeviceOwner := owner }, env.RekeyError) := by
  rcases OnOKButtonClick_run env d { Trace := [], DeviceOwner := prior } with
    hstop | ⟨t1, pw, pim, tr, owner, res, ht1, htr, hs, hen, halgo, heq, hr1, -, -⟩
  · exfalso
    obtain ⟨t, ht, hq⟩ := hstop
    rw [ht] at h
    exact not_mem_of_all (x := Effect.ExecuteWaitThreadRoutine routine) hq rfl
      (by simpa using h)
  · obtain ⟨t2, h2, ht2⟩ := afterRoutine_continued d
      { Trace := ({ Trace := [], DeviceOwner := prior } : World).Trace
          ++ (t1 ++ [Effect.SetEnrichedByUserStatus false,
            Effect.UserEnrichRandomPool (d.NewPasswordPanel.Pkcs5Kdf.map Pkcs5Kdf.Hash)])
          ++ tr
        DeviceOwner := owner } res
    have hin : Effect.ExecuteWaitThreadRoutine routine ∈ tr := by
      rw [heq, h2] at h
      simp only [List.nil_append, List.mem_append, List.mem_cons, List.mem_singleton,
        List.not_mem_nil, or_false] at h
      rcases h with ((h | h | h) | h) | h
      · exact absurd h (not_mem_of_all (x := Effect.ExecuteWaitThreadRoutine routine) ht1 rfl)
      · exact Effect.noConfusion h
      · exact Effect.noConfusion h
      · exact h
      · exact absurd h (not_mem_of_all (q := fun e => e.isInteraction || e.isResult)
          (x := Effect.ExecuteWaitThreadRoutine routine) ht2 rfl)
    obtain ⟨hrt, hres⟩ := hr1 routine hin
    refine ⟨t1, pw, pim, tr, owner, ht1, htr, ?_, hen, halgo, hrt, hin, ?_⟩
    · simpa using hs
    · rw [heq, hres]
      simp

/-- Interaction calls are not result calls. -/
theorem interaction_not_result (e : Effect) (h : e.isInteraction = true) :
    e.isResult = false := by
  cases e <;> first | rfl | exact Bool.noConfusion h

/-- Calls of the block of lines 146-168 are not result calls. -/
theorem device_not_result (e : Effect) (h : e.isDeviceOrRoutine = true) :
    e.isResult = false := by
  cases e <;> first | rfl | exact Bool.noConfusion h

/-- The calls made up to the end of the block of lines 146-168 are not result calls. -/
theorem no_result_before (t1 tr : List Effect) (h : Option Hash)
    (ht1 : ∀ e ∈ t1, e.isInteraction = true) (htr : ∀ e ∈ tr, e.isDeviceOrRoutine = true) :
    ∀ e ∈ t1 ++ [Effect.SetEnrichedByUserStatus false, Effect.UserEnrichRandomPool h] ++ tr,
      e.isResult = false := by
  intro e he
  simp only [List.mem_append, List.mem_cons, List.mem_singleton, List.not_mem_nil,
    or_false] at he
  rcases he with (h1 | h1 | h1) | h1
  · exact interaction_not_result e (ht1 e h1)
  · rw [h1]; rfl
  · rw [h1]; rfl
  · exact device_not_result e (htr e h1)

/-- When the try block is left by an exception, the log it leaves holds no result call
beyond those already in the log. -/
theorem tryBlock_thrown (env : Environment) (d : ChangePasswordDialog) (w w1 : World)
    (e : ExceptionKind) (h : OnOKButtonClick.tryBlock env d w = (w1, some e)) :
    ∃ t : List Effect, w1.Trace = w.Trace ++ t ∧ ∀ x ∈ t, x.isResult = false := by
  unfold OnOKButtonClick.tryBlock at h
  cases halgo : algoNotSupportedForTrueCryptMode d
  · simp only [halgo, Bool.false_eq_true, if_false] at h
    have hsel := selectNewPassword_continued env d w
    rcases hs : selectNewPassword env d w with ⟨w2, x | ⟨pw, pim⟩⟩
    · rw [hs] at h hsel
      cases x with
      | Return => simp at h
      | Throw e2 =>
        simp only [Prod.mk.injEq, Option.some.injEq] at h
        obtain ⟨t, ht, hq⟩ := hsel
        have ht2 : w2 = { Trace := w.Trace ++ t, DeviceOwner := w.DeviceOwner } := ht
        rw [← h.1, ht2]
        exact ⟨t, rfl, fun x hx => interaction_not_result x (hq x hx)⟩
    · rw [hs] at h hsel
      obtain ⟨t1, ht0, hq⟩ := hsel
      have ht : w2 = { Trace := w.Trace ++ t1, DeviceOwner := w.DeviceOwner } := ht0
      simp only [] at h
      obtain ⟨tr, owner, res, hrun, htr, -, -, -⟩ := runRoutine_parts env d
        (makeRoutine env d pw pim (selectNewKeyfiles d))
        ((w2.emit (Effect.SetEnrichedByUserStatus false)).emit
          (Effect.UserEnrichRandomPool (d.NewPasswordPanel.Pkcs5Kdf.map Pkcs5Kdf.Hash)))
      rw [hrun] at h
      have hw4 : ∀ x ∈ (t1 ++ [Effect.SetEnrichedByUserStatus false,
          Effect.UserEnrichRandomPool (d.NewPasswordPanel.Pkcs5Kdf.map Pkcs5Kdf.Hash)]) ++ tr,
          x.isResult = false := no_result_before t1 tr _ hq htr
      have htrace : ((w2.emit (Effect.SetEnrichedByUserStatus false)).emit
          (Effect.UserEnrichRandomPool (d.NewPasswordPanel.Pkcs5Kdf.map Pkcs5Kdf.Hash))).Trace
            ++ tr
          = w.Trace ++ ((t1 ++ [Effect.SetEnrichedByUserStatus false,
              Effect.UserEnrichRandomPool (d.NewPasswordPanel.Pkcs5Kdf.map Pkcs5Kdf.Hash)])
              ++ tr) := by
        rw [ht]; simp [World.emit]
      cases res with
      | some e2 =>
        simp only [Prod.mk.injEq, Option.some.injEq] at h
        rw [← h.1]
        exact ⟨_, htrace, hw4⟩
      | none =>
        simp only [] at h
        unfold showResult at h
        cases hm : d.DialogMode <;> rw [hm] at h <;> simp at h
        rw [← h.1]
        exact ⟨_, htrace, hw4⟩
  · simp [halgo] at h

/-- On a submit that passes lines 83-94 the log starts with the log of lines 96-134. -/
theorem OnOKButtonClick_extends_select (env : Environment) (d : ChangePasswordDialog)
    (w : World) (hen : d.OKButtonEnabled = true)
    (halgo : algoNotSupportedForTrueCryptMode d = false) :
    ∃ t : List Effect,
      (OnOKButtonClick env d w).Trace = (selectNewPassword env d w).1.Trace ++ t := by
  rcases hs : selectNewPassword env d w with ⟨w1, x | ⟨pw, pim⟩⟩
  · cases x with
    | Return =>
      refine ⟨[], ?_⟩
      simp [OnOKButtonClick, OnOKButtonClick.tryBlock, hen, halgo, hs]
    | Throw e =>
      obtain ⟨t, ht, -⟩ := catchClauses_continued e w1 w1 (continuedWith_refl _ w1)
      refine ⟨t, ?_⟩
      simp [OnOKButtonClick, OnOKButtonClick.tryBlock, hen, halgo, hs, ht]
  · rw [OnOKButtonClick_reached env d w w1 pw pim hen halgo hs]
    obtain ⟨tr, owner, res, hrun, -, -, -, -⟩ := runRoutine_parts env d
      (makeRoutine env d pw pim (selectNewKeyfiles d))
      ((w1.emit (Effect.SetEnrichedByUserStatus false)).emit
        (Effect.UserEnrichRandomPool (d.NewPasswordPanel.Pkcs5Kdf.map Pkcs5Kdf.Hash)))
    rw [hrun]
    obtain ⟨t2, h2, -⟩ := afterRoutine_continued d
      { Trace := ((w1.emit (Effect.SetEnrichedByUserStatus false)).emit
          (Effect.UserEnrichRandomPool (d.NewPasswordPanel.Pkcs5Kdf.map Pkcs5Kdf.Hash))).Trace
          ++ tr
        DeviceOwner := owner } res
    rw [h2]
    exact ⟨[Effect.SetEnrichedByUserStatus false,
      Effect.UserEnrichRandomPool (d.NewPasswordPanel.Pkcs5Kdf.map Pkcs5Kdf.Hash)] ++ tr ++ t2,
      by simp [World.emit]⟩

/-- The portability check is not an interaction made outside lines 96-134: it is not
among the calls of the catch clauses, of the enrichment, of the block of lines 146-168
or of lines 170-189. -/
theorem checkPortability_not_later (pw : VolumePassword) (e : Effect)
    (h : e.isDeviceOrRoutine = true ∨ e.isResult = true) :
    e ≠ Effect.CheckPortability pw := by
  intro he
  rw [he] at h
  rcases h with h | h <;> exact Bool.noConfusion h

/-- The catch clauses make report calls only. -/
theorem catchClauses_reports (e : ExceptionKind) (w : World) :
    w.continuedWith Effect.isReport (OnOKButtonClick.catchClauses e w) := by
  cases e <;> unfold OnOKButtonClick.catchClauses <;>
    first
      | exact continuedWith_emit _ (continuedWith_refl _ w) rfl
      | exact continuedWith_emit _ (continuedWith_emit _ (continuedWith_refl _ w) rfl) rfl

/-- Lines 170-204 make report and result calls only. -/
theorem afterRoutine_reports (d : ChangePasswordDialog) (w : World)
    (res : Option ExceptionKind) :
    w.continuedWith (fun e => e.isReport || e.isResult)
      (OnOKButtonClick.afterRoutine d (w, res)) := by
  have hm : ∀ e : Effect, e.isReport = true → (e.isReport || e.isResult) = true := by
    intro e he; simp [he]
  cases res with
  | some e => exact continuedWith_mono (catchClauses_reports e w) hm
  | none =>
    unfold OnOKButtonClick.afterRoutine showResult
    cases d.DialogMode
    case Invalid => exact continuedWith_mono (catchClauses_reports _ w) hm
    all_goals exact continuedWith_emit _ (continuedWith_emit _ (continuedWith_refl _ w) rfl) rfl

/-- In mode `ChangePasswordAndKeyfiles` lines 96-134 start with the portability check of
the new password. -/
theorem selectNewPassword_starts (env : Environment) (d : ChangePasswordDialog) (w : World)
    (hmode : d.DialogMode = Mode.ChangePasswordAndKeyfiles) :
    ∃ t : List Effect,
      (selectNewPassword env d w).1.Trace
        = w.Trace ++ Effect.CheckPortability d.NewPasswordPanel.Password :: t := by
  unfold selectNewPassword
  by_cases hport : env.Portable d.NewPasswordPanel.Password = true
  · obtain ⟨t, ht, -⟩ := checkPasswordSizeAndPim_continued env d.NewPasswordPanel.Password
      d.NewPasswordPanel.VolumePim
      (w.emit (Effect.CheckPortability d.NewPasswordPanel.Password))
      (w.emit (Effect.CheckPortability d.NewPasswordPanel.Password)) (continuedWith_refl _ _)
    simp only [hmode, hport, beq_self_eq_true, if_true, Bool.not_true, Bool.false_eq_true,
      if_false]
    refine ⟨t, ?_⟩
    split <;> rename_i heq <;> rw [heq] at ht <;>
      · have ht2 := congrArg World.Trace ht
        simpa [World.emit] using ht2
  · refine ⟨[], ?_⟩
    simp [hmode, hport, World.emit]

/-! ### The claims -/

/-- C1: the checks of lines 104-128 on a new password of size `L` and a new PIM `p`, with
`T` the warning size threshold.  For `0 < L`: (1) `L < T` and `p < 485` show the error
`PIM_REQUIRE_LONG_PASSWORD` and return, with no question asked; (2) `L < T` and
`485 ≤ p` ask `PASSWORD_LENGTH_WARNING` and go on iff the answer is yes; (3) `T ≤ L` and
`p < 485` ask `PIM_SMALL_WARNING` and go on iff the answer is yes; (4) `T ≤ L` and
`485 ≤ p` go on with no call at all.  For `L = 0` the checks make no call and go on; in a
mode other than `ChangePasswordAndKeyfiles` lines 96-134 make no call at all and select
the current password and PIM; in mode `ChangePasswordAndKeyfiles` with a portable
password they are the portability check followed by these checks.  For `4 < T ≤ 20`:
(4, 100) is the error, (4, 1000) and (20, 100) are questions, (20, 1000) goes on. -/
theorem policy_gate_verdict (env : Environment) (w : World) :
    (∀ (pw : VolumePassword) (p : Int), 0 < pw.Size →
      (pw.Size < env.WarningSizeThreshold → p < 485 →
        checkPasswordSizeAndPim env pw p w
          = (w.emit (Effect.ShowError LangKey.PIM_REQUIRE_LONG_PASSWORD), false))
      ∧ (pw.Size < env.WarningSizeThreshold → 485 ≤ p →
        checkPasswordSizeAndPim env pw p w
          = if env.AskYesNo LangKey.PASSWORD_LENGTH_WARNING then
              (w.emit (Effect.AskYesNo LangKey.PASSWORD_LENGTH_WARNING), true)
            else
              ((w.emit (Effect.AskYesNo LangKey.PASSWORD_LENGTH_WARNING)).emit
                (Effect.SetFocusToPasswordTextCtrl Panel.New), false))
      ∧ (env.WarningSizeThreshold ≤ pw.Size → p < 485 →
        checkPasswordSizeAndPim env pw p w
          = if env.AskYesNo LangKey.PIM_SMALL_WARNING then
              (w.emit (Effect.AskYesNo LangKey.PIM_SMALL_WARNING), true)
            else
              ((w.emit (Effect.AskYesNo LangKey.PIM_SMALL_WARNING)).emit
                (Effect.SetFocusToPimTextCtrl Panel.New), false))
      ∧ (env.WarningSizeThreshold ≤ pw.Size → 485 ≤ p →
        checkPasswordSizeAndPim env pw p w = (w, true)))
    ∧ (∀ (pw : VolumePassword) (p : Int), pw.Size = 0 →
        checkPasswordSizeAndPim env pw p w = (w, true))
    ∧ (∀ d : ChangePasswordDialog, d.DialogMode ≠ Mode.ChangePasswordAndKeyfiles →
        selectNewPassword env d w
          = (w, Except.ok (d.CurrentPasswordPanel.Password, d.CurrentPasswordPanel.VolumePim)))
    ∧ (∀ d : ChangePasswordDialog, d.DialogMode = Mode.ChangePasswordAndKeyfiles →
        env.Portable d.NewPasswordPanel.Password = true →
        selectNewPassword env d w
          = match checkPasswordSizeAndPim env d.NewPasswordPanel.Password
              d.NewPasswordPanel.VolumePim
              (w.emit (Effect.CheckPortability d.NewPasswordPanel.Password)) with
            | (w2, false) => (w2, Except.error Exit.Return)
            | (w2, true) =>
              (w2, Except.ok (d.NewPasswordPanel.Password, d.NewPasswordPanel.VolumePim)))
    ∧ (4 < env.WarningSizeThreshold → env.WarningSizeThreshold ≤ 20 →
        (∀ pw : VolumePassword, pw.Size = 4 →
          checkPasswordSizeAndPim env pw 100 w
            = (w.emit (Effect.ShowError LangKey.PIM_REQUIRE_LONG_PASSWORD), false)
          ∧ (checkPasswordSizeAndPim env pw 1000 w).1.Trace
            = w.Trace ++ [Effect.AskYesNo LangKey.PASSWORD_LENGTH_WARNING]
              ++ (if env.AskYesNo LangKey.PASSWORD_LENGTH_WARNING then []
                  else [Effect.SetFocusToPasswordTextCtrl Panel.New]))
        ∧ (∀ pw : VolumePassword, pw.Size = 20 →
          (checkPasswordSizeAndPim env pw 100 w).1.Trace
            = w.Trace ++ [Effect.AskYesNo LangKey.PIM_SMALL_WARNING]
              ++ (if env.AskYesNo LangKey.PIM_SMALL_WARNING then []
                  else [Effect.SetFocusToPimTextCtrl Panel.New])
          ∧ checkPasswordSizeAndPim env pw 1000 w = (w, true))) := by
  refine ⟨?_, ?_, ?_, ?_, ?_⟩
  · intro pw p hL
    refine ⟨?_, ?_, ?_, ?_⟩
    · intro hT hp
      simp [checkPasswordSizeAndPim, hL, hT, hp]
    · intro hT hp
      have hp2 : ¬ p < 485 := by omega
      cases h : env.AskYesNo LangKey.PASSWORD_LENGTH_WARNING <;>
        simp [checkPasswordSizeAndPim, hL, hT, hp2, h]
    · intro hT hp
      have hT2 : ¬ pw.Size < env.WarningSizeThreshold := by omega
      cases h : env.AskYesNo LangKey.PIM_SMALL_WARNING <;>
        simp [checkPasswordSizeAndPim, hL, hT2, hp, h]
    · intro hT hp
      have hT2 : ¬ pw.Size < env.WarningSizeThreshold := by omega
      have hp2 : ¬ p < 485 := by omega
      simp [checkPasswordSizeAndPim, hL, hT2, hp2]
  · intro pw p hL
    simp [checkPasswordSizeAndPim, hL]
  · intro d hm
    simp [selectNewPassword, hm]
  · intro d hm hport
    simp [selectNewPassword, hm, hport]
  · intro h4 h20
    refine ⟨?_, ?_⟩
    · intro pw hL
      have hT : 4 < env.WarningSizeThreshold := h4
      refine ⟨?_, ?_⟩
      · simp [checkPasswordSizeAndPim, hL, hT]
      · cases h : env.AskYesNo LangKey.PASSWORD_LENGTH_WARNING <;>
          simp [checkPasswordSizeAndPim, hL, hT, h, World.emit]
    · intro pw hL
      have hT : ¬ 20 < env.WarningSizeThreshold := by omega
      refine ⟨?_, ?_⟩
      · cases h : env.AskYesNo LangKey.PIM_SMALL_WARNING <;>
          simp [checkPasswordSizeAndPim, hL, hT, h, World.emit]
      · simp [checkPasswordSizeAndPim, hL, hT]

/-- Witness for C1 with threshold 12: (4, 100) is the error with no question, (4, 1000)
asks `PASSWORD_LENGTH_WARNING`, (20, 100) asks `PIM_SMALL_WARNING`, (20, 1000) makes no
call. -/
theorem policy_gate_verdict_witness :
    checkPasswordSizeAndPim sampleEnv (passwordOfSize 4) 100 (freshWorld 0)
        = ((freshWorld 0).emit (Effect.ShowError LangKey.PIM_REQUIRE_LONG_PASSWORD), false)
    ∧ checkPasswordSizeAndPim sampleEnv (passwordOfSize 4) 1000 (freshWorld 0)
        = ((freshWorld 0).emit (Effect.AskYesNo LangKey.PASSWORD_LENGTH_WARNING), true)
    ∧ checkPasswordSizeAndPim sampleEnv (passwordOfSize 20) 100 (freshWorld 0)
        = ((freshWorld 0).emit (Effect.AskYesNo LangKey.PIM_SMALL_WARNING), true)
    ∧ checkPasswordSizeAndPim sampleEnv (passwordOfSize 20) 1000 (freshWorld 0)
        = (freshWorld 0, true) :=
  ⟨((policy_gate_verdict sampleEnv (freshWorld 0)).1 (passwordOfSize 4) 100
      (by decide)).1 (by decide) (by decide),
   ((policy_gate_verdict sampleEnv (freshWorld 0)).1 (passwordOfSize 4) 1000
      (by decide)).2.1 (by decide) (by decide),
   ((policy_gate_verdict sampleEnv (freshWorld 0)).1 (passwordOfSize 20) 100
      (by decide)).2.2.1 (by decide) (by decide),
   ((policy_gate_verdict sampleEnv (freshWorld 0)).1 (passwordOfSize 20) 1000
      (by decide)).2.2.2 (by decide) (by decide)⟩

/-- C2: in every mode and for every state of the two panels, the value given to the OK
button by `OnPasswordPanelUpdate` is false when the current password is empty and the
current keyfile list is absent or empty. -/
theorem not_allowed_without_current_credentials (d : ChangePasswordDialog) (w : World)
    (hpw : d.CurrentPasswordPanel.Password.IsEmpty = true)
    (hkf : d.CurrentPasswordPanel.Keyfiles = none ∨ d.CurrentPasswordPanel.Keyfiles = some []) :
    (OnPasswordPanelUpdate d w).1.OKButtonEnabled = false := by
  have hk : keyfilesEmpty d.CurrentPasswordPanel.Keyfiles = true := by
    rcases hkf with h | h <;> simp [h, keyfilesEmpty]
  have hok : OnPasswordPanelUpdate.ok d = false := by
    simp [OnPasswordPanelUpdate.ok, hpw, hk]
  unfold OnPasswordPanelUpdate
  split <;> simp [hok]

/-- Witness for C2: mode `ChangePkcs5Prf`, empty current password, absent current
keyfiles. -/
theorem not_allowed_without_current_credentials_witness :
    (OnPasswordPanelUpdate
      (sampleDialog Mode.ChangePkcs5Prf { samplePanel with Password := passwordOfSize 0 }
        samplePanel) (freshWorld 0)).1.OKButtonEnabled = false :=
  not_allowed_without_current_credentials
    (sampleDialog Mode.ChangePkcs5Prf { samplePanel with Password := passwordOfSize 0 }
      samplePanel) (freshWorld 0) (by decide) (Or.inl (by decide))

/-- C3: in mode `RemoveAllKeyfiles` the value given to the OK button is true if and only if
the current password is non-empty and the current keyfile list has at least one entry;
the state of the new panel plays no part. -/
theorem remove_all_keyfiles_allowed_iff (d : ChangePasswordDialog) (w : World)
    (hmode : d.DialogMode = Mode.RemoveAllKeyfiles) :
    ((OnPasswordPanelUpdate d w).1.OKButtonEnabled = true
      ↔ d.CurrentPasswordPanel.Password.Size ≠ 0
        ∧ ∃ l, d.CurrentPasswordPanel.Keyfiles = some l ∧ l ≠ [])
    ∧ ∀ (new : VolumePasswordPanel) (enabled : Bool) (w2 : World),
        (OnPasswordPanelUpdate
          { d with NewPasswordPanel := new, OKButtonEnabled := enabled } w2).1.OKButtonEnabled
        = (OnPasswordPanelUpdate d w).1.OKButtonEnabled := by
  refine ⟨?_, ?_⟩
  · rw [OnPasswordPanelUpdate_enabled, ← keyfilesEmpty_eq_false_iff]
    cases hk : keyfilesEmpty d.CurrentPasswordPanel.Keyfiles <;>
      cases hp : d.CurrentPasswordPanel.Password.IsEmpty <;>
      simp [OnPasswordPanelUpdate.ok, hmode, hk, hp] <;>
      simp [VolumePassword.IsEmpty] at hp <;> simp [hp]
  · intro new enabled w2
    simp [OnPasswordPanelUpdate_enabled, OnPasswordPanelUpdate.ok, hmode]

/-- Witness for C3: a current panel with a one-byte password and one keyfile is allowed. -/
theorem remove_all_keyfiles_allowed_iff_witness :
    (OnPasswordPanelUpdate
      (sampleDialog Mode.RemoveAllKeyfiles { samplePanel with Keyfiles := some [{ Path := "k" }] }
        samplePanel) (freshWorld 0)).1.OKButtonEnabled = true :=
  ((remove_all_keyfiles_allowed_iff
    (sampleDialog Mode.RemoveAllKeyfiles { samplePanel with Keyfiles := some [{ Path := "k" }] }
      samplePanel) (freshWorld 0) rfl).1).2 ⟨by decide, [{ Path := "k" }], rfl, by decide⟩

/-- C4: in mode `ChangePasswordAndKeyfiles`, whatever the current panel holds, the value
given to the OK button is false when (a) the new password is empty and the new keyfile
list is absent or empty, or (b) the two entries of the new password do not match. -/
theorem change_password_not_allowed (d : ChangePasswordDialog) (w : World)
    (hmode : d.DialogMode = Mode.ChangePasswordAndKeyfiles)
    (h : (d.NewPasswordPanel.Password.Size = 0
          ∧ (d.NewPasswordPanel.Keyfiles = none ∨ d.NewPasswordPanel.Keyfiles = some []))
        ∨ d.NewPasswordPanel.PasswordsMatch = false) :
    (OnPasswordPanelUpdate d w).1.OKButtonEnabled = false := by
  rw [OnPasswordPanelUpdate_enabled]
  rcases h with ⟨hp, hk⟩ | hm
  · have hp2 := (IsEmpty_iff _).2 hp
    have hk2 := (keyfilesEmpty_iff _).2 hk
    simp [OnPasswordPanelUpdate.ok, hmode, hp2, hk2]
  · simp [OnPasswordPanelUpdate.ok, hmode, hm]

/-- Witness for C4: a valid current panel and a valid new password whose two entries do
not match. -/
theorem change_password_not_allowed_witness :
    (OnPasswordPanelUpdate
      (sampleDialog Mode.ChangePasswordAndKeyfiles samplePanel
        { samplePanel with Password := passwordOfSize 20, PasswordsMatch := false })
      (freshWorld 0)).1.OKButtonEnabled = false :=
  change_password_not_allowed
    (sampleDialog Mode.ChangePasswordAndKeyfiles samplePanel
      { samplePanel with Password := passwordOfSize 20, PasswordsMatch := false })
    (freshWorld 0) rfl (Or.inr rfl)

/-- C5: in mode `ChangeKeyfiles` the value given to the OK button is false when the new
keyfile list is absent or empty and either the current password is empty or the current
keyfile list is absent or empty. -/
theorem change_keyfiles_not_allowed (d : ChangePasswordDialog) (w : World)
    (hmode : d.DialogMode = Mode.ChangeKeyfiles)
    (h : (d.CurrentPasswordPanel.Password.Size = 0
          ∧ (d.NewPasswordPanel.Keyfiles = none ∨ d.NewPasswordPanel.Keyfiles = some []))
        ∨ ((d.CurrentPasswordPanel.Keyfiles = none ∨ d.CurrentPasswordPanel.Keyfiles = some [])
          ∧ (d.NewPasswordPanel.Keyfiles = none ∨ d.NewPasswordPanel.Keyfiles = some []))) :
    (OnPasswordPanelUpdate d w).1.OKButtonEnabled = false := by
  rw [OnPasswordPanelUpdate_enabled]
  rcases h with ⟨hp, hk⟩ | ⟨hc, hk⟩
  · have hp2 := (IsEmpty_iff _).2 hp
    have hk2 := (keyfilesEmpty_iff _).2 hk
    simp [OnPasswordPanelUpdate.ok, hmode, hp2, hk2]
  · have hc2 := (keyfilesEmpty_iff _).2 hc
    have hk2 := (keyfilesEmpty_iff _).2 hk
    simp [OnPasswordPanelUpdate.ok, hmode, hc2, hk2]

/-- Witness for C5: a current password, no keyfiles before and none after. -/
theorem change_keyfiles_not_allowed_witness :
    (OnPasswordPanelUpdate (sampleDialog Mode.ChangeKeyfiles samplePanel samplePanel)
      (freshWorld 0)).1.OKButtonEnabled = false :=
  change_keyfiles_not_allowed (sampleDialog Mode.ChangeKeyfiles samplePanel samplePanel)
    (freshWorld 0) rfl (Or.inr ⟨Or.inl rfl, Or.inl rfl⟩)

/-- C6: on a submit in mode `ChangePasswordAndKeyfiles` that reaches the checks of lines
104-128 with a non-empty new password, (1) a short password with a PIM below 485 yields
only the portability check and the error `PIM_REQUIRE_LONG_PASSWORD`; (2) a short
password with a PIM of at least 485, the question declined, yields only the portability
check, the question and the focus on the new password field; (3) a long password with a
PIM below 485, the question declined, yields only the portability check, the question
and the focus on the new PIM field.  In all three the log holds nothing else (no
enrichment, no ownership call, no routine, no result message, no error for a declined
question) and the device owner is unchanged. -/
theorem gate_abort_makes_no_change (env : Environment) (d : ChangePasswordDialog) (w : World)
    (henabled : d.OKButtonEnabled = true)
    (halgo : algoNotSupportedForTrueCryptMode d = false)
    (hmode : d.DialogMode = Mode.ChangePasswordAndKeyfiles)
    (hport : env.Portable d.NewPasswordPanel.Password = true)
    (hsize : 0 < d.NewPasswordPanel.Password.Size) :
    (d.NewPasswordPanel.Password.Size < env.WarningSizeThreshold →
      d.NewPasswordPanel.VolumePim < 485 →
      OnOKButtonClick env d w
        = { Trace := w.Trace ++ [Effect.CheckPortability d.NewPasswordPanel.Password,
              Effect.ShowError LangKey.PIM_REQUIRE_LONG_PASSWORD]
            DeviceOwner := w.DeviceOwner })
    ∧ (d.NewPasswordPanel.Password.Size < env.WarningSizeThreshold →
      485 ≤ d.NewPasswordPanel.VolumePim →
      env.AskYesNo LangKey.PASSWORD_LENGTH_WARNING = false →
      OnOKButtonClick env d w
        = { Trace := w.Trace ++ [Effect.CheckPortability d.NewPasswordPanel.Password,
              Effect.AskYesNo LangKey.PASSWORD_LENGTH_WARNING,
              Effect.SetFocusToPasswordTextCtrl Panel.New]
            DeviceOwner := w.DeviceOwner })
    ∧ (env.WarningSizeThreshold ≤ d.NewPasswordPanel.Password.Size →
      d.NewPasswordPanel.VolumePim < 485 →
      env.AskYesNo LangKey.PIM_SMALL_WARNING = false →
      OnOKButtonClick env d w
        = { Trace := w.Trace ++ [Effect.CheckPortability d.NewPasswordPanel.Password,
              Effect.AskYesNo LangKey.PIM_SMALL_WARNING,
              Effect.SetFocusToPimTextCtrl Panel.New]
            DeviceOwner := w.DeviceOwner }) := by
  refine ⟨?_, ?_, ?_⟩
  · intro hT hp
    simp [OnOKButtonClick, OnOKButtonClick.tryBlock, selectNewPassword,
      checkPasswordSizeAndPim, World.emit, henabled, halgo, hmode, hport, hsize, hT, hp]
  · intro hT hp hno
    have hp2 : ¬ d.NewPasswordPanel.VolumePim < 485 := by omega
    simp [OnOKButtonClick, OnOKButtonClick.tryBlock, selectNewPassword,
      checkPasswordSizeAndPim, World.emit, henabled, halgo, hmode, hport, hsize, hT, hp2, hno]
  · intro hT hp hno
    have hT2 : ¬ d.NewPasswordPanel.Password.Size < env.WarningSizeThreshold := by omega
    simp [OnOKButtonClick, OnOKButtonClick.tryBlock, selectNewPassword,
      checkPasswordSizeAndPim, World.emit, henabled, halgo, hmode, hport, hsize, hT2, hp, hno]

/-- Witness for C6: with threshold 12, a new password of 4 bytes and the PIM 100 stop the
submit at the error. -/
theorem gate_abort_makes_no_change_witness :
    OnOKButtonClick sampleEnv
        (sampleDialog Mode.ChangePasswordAndKeyfiles samplePanel
          { samplePanel with Password := passwordOfSize 4, VolumePim := 100 })
        (freshWorld 0)
      = { Trace := [Effect.CheckPortability (passwordOfSize 4),
            Effect.ShowError LangKey.PIM_REQUIRE_LONG_PASSWORD]
          DeviceOwner := { SystemId := 0 } } :=
  (gate_abort_makes_no_change sampleEnv
    (sampleDialog Mode.ChangePasswordAndKeyfiles samplePanel
      { samplePanel with Password := passwordOfSize 4, VolumePim := 100 })
    (freshWorld 0) rfl (by decide) rfl rfl (by decide)).1 (by decide) (by decide)

/-- C7 (amended): on a submit in which the device ownership was reassigned to the current
user (the call `SetFileOwner (Path, getuid ())` was made and returned), for every prior
owner other than `(uid_t) -1`, and whatever the outcome of the routine, the log of the
submit holds, in a row, `GetOwner`, the acquisition, the routine and one call setting the
owner back to the prior owner, with no other ownership call and no other routine call
before or after them; when that last call returns, the device owner after the submit is
the prior owner. -/
theorem ownership_restored_exactly_once (env : Environment) (d : ChangePasswordDialog)
    (prior : UserId)
    (hacq : Effect.SetFileOwner d.Path env.getuid
      ∈ (OnOKButtonClick env d { Trace := [], DeviceOwner := prior }).Trace)
    (hdone : env.SetFileOwnerError env.getuid = none)
    (hprior : prior.SystemId ≠ UID_MINUS_ONE) :
    (∃ (before after : List Effect) (routine : ChangePasswordThreadRoutine),
      (OnOKButtonClick env d { Trace := [], DeviceOwner := prior }).Trace
        = before ++ [Effect.GetOwner d.Path, Effect.SetFileOwner d.Path env.getuid,
            Effect.ExecuteWaitThreadRoutine routine, Effect.SetFileOwner d.Path prior] ++ after
      ∧ (∀ e ∈ before, (e.isSetFileOwner || e.isRoutine) = false)
      ∧ (∀ e ∈ after, (e.isSetFileOwner || e.isRoutine) = false))
    ∧ (env.SetFileOwnerError prior = none →
        (OnOKButtonClick env d { Trace := [], DeviceOwner := prior }).DeviceOwner = prior) := by
  rcases OnOKButtonClick_cases env d { Trace := [], DeviceOwner := prior } with
    hstop | ⟨t1, pw, pim, t2, ht1, ht2, -, -, -, heq⟩
  · exfalso
    obtain ⟨t, ht, hq⟩ := hstop
    rw [ht] at hacq
    exact not_mem_of_all (x := Effect.SetFileOwner d.Path env.getuid) hq rfl (by simpa using hacq)
  · rw [heq] at hacq ⊢
    generalize makeRoutine env d pw pim (selectNewKeyfiles d) = routine at hacq ⊢
    have hn1 := not_mem_of_all (x := Effect.SetFileOwner d.Path env.getuid) ht1 rfl
    have hn2 := not_mem_of_all (x := Effect.SetFileOwner d.Path env.getuid) ht2 rfl
    by_cases hcond : env.TC_UNIX = true ∧ env.HasAdminPrivileges = false ∧ d.Path.IsDevice = true
    · cases hg : env.GetOwnerError with
      | some e =>
        rw [runRoutine_getOwner_error env d routine _ e hcond hg] at hacq
        simp [hn1, hn2] at hacq
      | none =>
        rw [runRoutine_restore env d routine _ hcond hg hdone hprior]
        refine ⟨⟨t1 ++ [Effect.SetEnrichedByUserStatus false,
            Effect.UserEnrichRandomPool (d.NewPasswordPanel.Pkcs5Kdf.map Pkcs5Kdf.Hash)],
          t2, routine, ?_, ?_, ?_⟩, ?_⟩
        · simp
        · intro e he
          rcases List.mem_append.1 he with h | h
          · exact interaction_not_owner_routine e (ht1 e h)
          · simp only [List.mem_cons, List.mem_singleton, List.not_mem_nil, or_false] at h
            rcases h with h | h <;> rw [h] <;> rfl
        · intro e he
          exact result_not_owner_routine e (ht2 e he)
        · intro hr
          simp [hr]
    · rw [runRoutine_plain env d routine _ hcond] at hacq
      simp [hn1, hn2] at hacq

/-- Witness for C7 (amended): the routine fails, the prior owner 0 is restored once. -/
theorem ownership_restored_exactly_once_witness :
    (∃ (before after : List Effect) (routine : ChangePasswordThreadRoutine),
      (OnOKButtonClick { sampleEnv with RekeyError := some ExceptionKind.Other }
          (sampleDialog Mode.ChangePkcs5Prf samplePanel samplePanel)
          { Trace := [], DeviceOwner := { SystemId := 0 } }).Trace
        = before ++ [Effect.GetOwner { Data := "/dev/sdb1", IsDevice := true },
            Effect.SetFileOwner { Data := "/dev/sdb1", IsDevice := true } { SystemId := 1000 },
            Effect.ExecuteWaitThreadRoutine routine,
            Effect.SetFileOwner { Data := "/dev/sdb1", IsDevice := true } { SystemId := 0 }]
          ++ after
      ∧ (∀ e ∈ before, (e.isSetFileOwner || e.isRoutine) = false)
      ∧ (∀ e ∈ after, (e.isSetFileOwner || e.isRoutine) = false))
    ∧ (OnOKButtonClick { sampleEnv with RekeyError := some ExceptionKind.Other }
          (sampleDialog Mode.ChangePkcs5Prf samplePanel samplePanel)
          { Trace := [], DeviceOwner := { SystemId := 0 } }).DeviceOwner = { SystemId := 0 } :=
  ⟨(ownership_restored_exactly_once { sampleEnv with RekeyError := some ExceptionKind.Other }
      (sampleDialog Mode.ChangePkcs5Prf samplePanel samplePanel) { SystemId := 0 }
      (by decide) rfl (by decide)).1,
   (ownership_restored_exactly_once { sampleEnv with RekeyError := some ExceptionKind.Other }
      (sampleDialog Mode.ChangePkcs5Prf samplePanel samplePanel) { SystemId := 0 }
      (by decide) rfl (by decide)).2 rfl⟩

/-- Counterexample to C7 as stated: when the prior owner is `(uid_t) -1`, ownership is
reassigned to user 1000, the only ownership call of the submit is the acquisition, and
the device owner after the submit is not the prior owner. -/
theorem ownership_not_restored_from_minus_one :
    Effect.SetFileOwner (sampleDialog Mode.ChangePkcs5Prf samplePanel samplePanel).Path
        sampleEnv.getuid
      ∈ (OnOKButtonClick sampleEnv (sampleDialog Mode.ChangePkcs5Prf samplePanel samplePanel)
          (freshWorld UID_MINUS_ONE)).Trace
    ∧ sampleEnv.SetFileOwnerError sampleEnv.getuid = none
    ∧ (OnOKButtonClick sampleEnv (sampleDialog Mode.ChangePkcs5Prf samplePanel samplePanel)
          (freshWorld UID_MINUS_ONE)).Trace.filter Effect.isSetFileOwner
        = [Effect.SetFileOwner (sampleDialog Mode.ChangePkcs5Prf samplePanel samplePanel).Path
            sampleEnv.getuid]
    ∧ (OnOKButtonClick sampleEnv (sampleDialog Mode.ChangePkcs5Prf samplePanel samplePanel)
          (freshWorld UID_MINUS_ONE)).DeviceOwner ≠ (freshWorld UID_MINUS_ONE).DeviceOwner := by
  decide

/-- C8 (amended): on a submit of a `TC_UNIX` build in which ownership acquisition is
required (no administrator privileges, the path is a device), the routine is not run
before the call `SetFileOwner (Path, getuid ())`, and it is run only if `GetOwner` and
that call returned; the enrichment request, however, is made before any ownership
call. -/
theorem routine_after_ownership (env : Environment) (d : ChangePasswordDialog) (prior : UserId)
    (hreq : env.TC_UNIX = true ∧ env.HasAdminPrivileges = false ∧ d.Path.IsDevice = true) :
    noneBefore Effect.isRoutine (fun e => e == Effect.SetFileOwner d.Path env.getuid)
        (OnOKButtonClick env d { Trace := [], DeviceOwner := prior }).Trace = true
    ∧ ((∃ e ∈ (OnOKButtonClick env d { Trace := [], DeviceOwner := prior }).Trace,
          e.isRoutine = true) →
        env.GetOwnerError = none ∧ env.SetFileOwnerError env.getuid = none)
    ∧ noneBefore Effect.isSetFileOwner Effect.isEnrich
        (OnOKButtonClick env d { Trace := [], DeviceOwner := prior }).Trace = true := by
  rcases OnOKButtonClick_cases env d { Trace := [], DeviceOwner := prior } with
    hstop | ⟨t1, pw, pim, t2, ht1, ht2, -, -, -, heq⟩
  · obtain ⟨t, ht, hq⟩ := hstop
    rw [ht]
    dsimp only
    rw [List.nil_append]
    refine ⟨noneBefore_of_all _ _ _ (fun e he => interaction_not_routine e (hq e he)), ?_,
      noneBefore_of_all _ _ _ (fun e he => interaction_not_owner e (hq e he))⟩
    rintro ⟨e, he, hr⟩
    rw [interaction_not_routine e (hq e he)] at hr
    exact Bool.noConfusion hr
  · rw [heq]
    generalize makeRoutine env d pw pim (selectNewKeyfiles d) = routine
    have hr1 : ∀ e ∈ t1, e.isRoutine = false := fun e he => interaction_not_routine e (ht1 e he)
    have hr2 : ∀ e ∈ t2, e.isRoutine = false := fun e he => result_not_routine e (ht2 e he)
    have ho1 : ∀ e ∈ t1, e.isSetFileOwner = false :=
      fun e he => interaction_not_owner e (ht1 e he)
    have henrich : ∀ rest : List Effect,
        noneBefore Effect.isSetFileOwner Effect.isEnrich
          (t1 ++ (Effect.SetEnrichedByUserStatus false ::
            Effect.UserEnrichRandomPool (d.NewPasswordPanel.Pkcs5Kdf.map Pkcs5Kdf.Hash)
            :: rest)) = true := by
      intro rest
      have := noneBefore_split Effect.isSetFileOwner Effect.isEnrich
        (t1 ++ [Effect.SetEnrichedByUserStatus false])
        (Effect.UserEnrichRandomPool (d.NewPasswordPanel.Pkcs5Kdf.map Pkcs5Kdf.Hash)) rest
        (by
          intro e he
          rcases List.mem_append.1 he with h | h
          · exact ho1 e h
          · rw [List.mem_singleton.1 h]; rfl) rfl
      simpa using this
    have hacquire : ∀ rest : List Effect,
        noneBefore Effect.isRoutine (fun e => e == Effect.SetFileOwner d.Path env.getuid)
          (t1 ++ (Effect.SetEnrichedByUserStatus false ::
            Effect.UserEnrichRandomPool (d.NewPasswordPanel.Pkcs5Kdf.map Pkcs5Kdf.Hash)
            :: Effect.GetOwner d.Path :: Effect.SetFileOwner d.Path env.getuid :: rest))
          = true := by
      intro rest
      have := noneBefore_split Effect.isRoutine
        (fun e => e == Effect.SetFileOwner d.Path env.getuid)
        (t1 ++ [Effect.SetEnrichedByUserStatus false,
          Effect.UserEnrichRandomPool (d.NewPasswordPanel.Pkcs5Kdf.map Pkcs5Kdf.Hash),
          Effect.GetOwner d.Path])
        (Effect.SetFileOwner d.Path env.getuid) rest
        (by
          intro e he
          rcases List.mem_append.1 he with h | h
          · exact hr1 e h
          · simp only [List.mem_cons, List.mem_singleton, List.not_mem_nil, or_false] at h
            rcases h with h | h | h <;> rw [h] <;> rfl) (by simp)
      simpa using this
    cases hg : env.GetOwnerError with
    | some e =>
      rw [runRoutine_getOwner_error env d routine _ e hreq hg]
      dsimp only
      simp only [List.nil_append, List.append_assoc, List.cons_append]
      have hno := no_routine_append t1 [Effect.SetEnrichedByUserStatus false,
          Effect.UserEnrichRandomPool (d.NewPasswordPanel.Pkcs5Kdf.map Pkcs5Kdf.Hash),
          Effect.GetOwner d.Path] t2 hr1
        (by
          intro x h
          simp only [List.mem_cons, List.mem_singleton, List.not_mem_nil, or_false] at h
          rcases h with h | h | h <;> rw [h] <;> rfl) hr2
      simp only [List.cons_append, List.nil_append] at hno
      refine ⟨noneBefore_of_all _ _ _ hno, ?_, henrich _⟩
      rintro ⟨x, hx, hxr⟩
      rw [hno x hx] at hxr
      exact Bool.noConfusion hxr
    | none =>
      cases hs : env.SetFileOwnerError env.getuid with
      | some e =>
        rw [runRoutine_acquire_error env d routine _ e hreq hg hs]
        dsimp only
        simp only [List.nil_append, List.append_assoc, List.cons_append]
        refine ⟨hacquire _, ?_, henrich _⟩
        have hno := no_routine_append t1 [Effect.SetEnrichedByUserStatus false,
            Effect.UserEnrichRandomPool (d.NewPasswordPanel.Pkcs5Kdf.map Pkcs5Kdf.Hash),
            Effect.GetOwner d.Path, Effect.SetFileOwner d.Path env.getuid] t2 hr1
          (by
            intro x h
            simp only [List.mem_cons, List.mem_singleton, List.not_mem_nil, or_false] at h
            rcases h with h | h | h | h <;> rw [h] <;> rfl) hr2
        simp only [List.cons_append, List.nil_append] at hno
        rintro ⟨x, hx, hxr⟩
        rw [hno x hx] at hxr
        exact Bool.noConfusion hxr
      | none =>
        by_cases hp : prior.SystemId = UID_MINUS_ONE
        · rw [runRoutine_minus_one env d routine _ hreq hg hs hp]
          dsimp only
          simp only [List.nil_append, List.append_assoc, List.cons_append]
          exact ⟨hacquire _, fun _ => by simp, henrich _⟩
        · rw [runRoutine_restore env d routine _ hreq hg hs hp]
          dsimp only
          simp only [List.nil_append, List.append_assoc, List.cons_append]
          exact ⟨hacquire _, fun _ => by simp, henrich _⟩

/-- Witness for C8 (amended): a submit by the unprivileged user 1000 on a device. -/
theorem routine_after_ownership_witness :
    noneBefore Effect.isRoutine
        (fun e => e == Effect.SetFileOwner { Data := "/dev/sdb1", IsDevice := true }
          { SystemId := 1000 })
        (OnOKButtonClick sampleEnv (sampleDialog Mode.ChangePkcs5Prf samplePanel samplePanel)
          { Trace := [], DeviceOwner := { SystemId := 0 } }).Trace = true
    ∧ noneBefore Effect.isSetFileOwner Effect.isEnrich
        (OnOKButtonClick sampleEnv (sampleDialog Mode.ChangePkcs5Prf samplePanel samplePanel)
          { Trace := [], DeviceOwner := { SystemId := 0 } }).Trace = true :=
  ⟨(routine_after_ownership sampleEnv (sampleDialog Mode.ChangePkcs5Prf samplePanel samplePanel)
      { SystemId := 0 } ⟨rfl, rfl, rfl⟩).1,
   (routine_after_ownership sampleEnv (sampleDialog Mode.ChangePkcs5Prf samplePanel samplePanel)
      { SystemId := 0 } ⟨rfl, rfl, rfl⟩).2.2⟩

/-- Counterexample to C8 as stated: in a submit that requires ownership acquisition,
the enrichment request is made before the call `SetFileOwner (Path, getuid ())`. -/
theorem enrichment_before_ownership :
    (sampleEnv.TC_UNIX = true ∧ sampleEnv.HasAdminPrivileges = false
      ∧ (sampleDialog Mode.ChangePkcs5Prf samplePanel samplePanel).Path.IsDevice = true)
    ∧ noneBefore Effect.isEnrich
        (fun e => e == Effect.SetFileOwner
          (sampleDialog Mode.ChangePkcs5Prf samplePanel samplePanel).Path sampleEnv.getuid)
        (OnOKButtonClick sampleEnv (sampleDialog Mode.ChangePkcs5Prf samplePanel samplePanel)
          (freshWorld 0)).Trace = false := by
  decide

/-- C9: in every mode, on a submit (OK button enabled) with a current key derivation
function named `HMAC-SHA-256` and the current panel in TrueCrypt mode, the handler shows
the warning `ALGO_NOT_SUPPORTED_FOR_TRUECRYPT_MODE`, skips the event and returns: the log
holds nothing else (no portability check, no size or PIM check, no question, no
enrichment, no ownership call, no routine, no result message) and the device owner is
unchanged. -/
theorem truecrypt_mode_kdf_blocks_submit (env : Environment) (d : ChangePasswordDialog)
    (w : World) (currentKdf : Pkcs5Kdf)
    (henabled : d.OKButtonEnabled = true)
    (hkdf : d.CurrentPasswordPanel.Pkcs5Kdf = some currentKdf)
    (hname : currentKdf.Name = "HMAC-SHA-256")
    (hlegacy : d.CurrentPasswordPanel.TrueCryptMode = true) :
    OnOKButtonClick env d w
      = { Trace := w.Trace ++ [Effect.ShowWarning LangKey.ALGO_NOT_SUPPORTED_FOR_TRUECRYPT_MODE,
            Effect.EventSkip]
          DeviceOwner := w.DeviceOwner } := by
  simp [OnOKButtonClick, OnOKButtonClick.tryBlock, algoNotSupportedForTrueCryptMode,
    World.emit, henabled, hkdf, hname, hlegacy]

/-- Witness for C9: mode `ChangePasswordAndKeyfiles` with an unportable short new
password: only the warning is shown. -/
theorem truecrypt_mode_kdf_blocks_submit_witness :
    OnOKButtonClick { sampleEnv with Portable := fun _ => false }
        (sampleDialog Mode.ChangePasswordAndKeyfiles
          { samplePanel with
            Pkcs5Kdf := some { Name := "HMAC-SHA-256", Hash := { Name := "SHA-256" } }
            TrueCryptMode := true }
          { samplePanel with Password := passwordOfSize 4, VolumePim := 100 })
        (freshWorld 0)
      = { Trace := [Effect.ShowWarning LangKey.ALGO_NOT_SUPPORTED_FOR_TRUECRYPT_MODE,
            Effect.EventSkip]
          DeviceOwner := { SystemId := 0 } } :=
  truecrypt_mode_kdf_blocks_submit { sampleEnv with Portable := fun _ => false }
    (sampleDialog Mode.ChangePasswordAndKeyfiles
      { samplePanel with
        Pkcs5Kdf := some { Name := "HMAC-SHA-256", Hash := { Name := "SHA-256" } }
        TrueCryptMode := true }
      { samplePanel with Password := passwordOfSize 4, VolumePim := 100 })
    (freshWorld 0) { Name := "HMAC-SHA-256", Hash := { Name := "SHA-256" } } rfl rfl rfl rfl

/-- C10 (amended): every routine run by a submit carries, as new password and new PIM,
those of the new panel in mode `ChangePasswordAndKeyfiles` and those of the current panel
in every other mode; as new keyfiles, those of the new panel in modes
`ChangePasswordAndKeyfiles` and `ChangeKeyfiles`, those of the current panel in mode
`ChangePkcs5Prf`, and none in mode `RemoveAllKeyfiles`; as new key derivation function,
the one of the new panel in every mode; and the current password, PIM, key derivation
function and keyfiles unchanged.  In mode `ChangeKeyfiles` with a non-empty current
password, no current keyfiles and at least one new keyfile, `OnPasswordPanelUpdate`
enables the OK button, and the submit that follows, unless rejected by line 89 or failing
to take ownership, runs the routine with the current password and PIM as new password and
PIM and with the key derivation function of the new panel. -/
theorem new_credentials_passed (env : Environment) (d : ChangePasswordDialog) (prior : UserId) :
    (∀ routine : ChangePasswordThreadRoutine,
      Effect.ExecuteWaitThreadRoutine routine
        ∈ (OnOKButtonClick env d { Trace := [], DeviceOwner := prior }).Trace →
      (d.DialogMode = Mode.ChangePasswordAndKeyfiles →
        routine.m_newPassword = d.NewPasswordPanel.Password
        ∧ routine.m_newPim = d.NewPasswordPanel.VolumePim)
      ∧ (d.DialogMode ≠ Mode.ChangePasswordAndKeyfiles →
        routine.m_newPassword = d.CurrentPasswordPanel.Password
        ∧ routine.m_newPim = d.CurrentPasswordPanel.VolumePim)
      ∧ (d.DialogMode = Mode.ChangePasswordAndKeyfiles ∨ d.DialogMode = Mode.ChangeKeyfiles →
        routine.m_newKeyfiles = d.NewPasswordPanel.Keyfiles)
      ∧ (d.DialogMode = Mode.ChangePkcs5Prf →
        routine.m_newKeyfiles = d.CurrentPasswordPanel.Keyfiles)
      ∧ (d.DialogMode = Mode.RemoveAllKeyfiles → routine.m_newKeyfiles = none)
      ∧ routine.m_newPkcs5Kdf = d.NewPasswordPanel.Pkcs5Kdf
      ∧ routine.m_password = d.CurrentPasswordPanel.Password
      ∧ routine.m_pim = d.CurrentPasswordPanel.VolumePim
      ∧ routine.m_kdf = d.CurrentPasswordPanel.Pkcs5Kdf
      ∧ routine.m_keyfiles = d.CurrentPasswordPanel.Keyfiles)
    ∧ (d.DialogMode = Mode.ChangeKeyfiles →
      d.CurrentPasswordPanel.Password.Size ≠ 0 →
      (d.CurrentPasswordPanel.Keyfiles = none ∨ d.CurrentPasswordPanel.Keyfiles = some []) →
      (∃ l, d.NewPasswordPanel.Keyfiles = some l ∧ l ≠ []) →
      (OnPasswordPanelUpdate d { Trace := [], DeviceOwner := prior }).1.OKButtonEnabled = true
      ∧ (algoNotSupportedForTrueCryptMode d = false →
        (env.TC_UNIX = true ∧ env.HasAdminPrivileges = false ∧ d.Path.IsDevice = true →
          env.GetOwnerError = none ∧ env.SetFileOwnerError env.getuid = none) →
        Effect.ExecuteWaitThreadRoutine
            { m_volumePath := d.Path
              m_preserveTimestamps := env.PreserveTimestamps
              m_password := d.CurrentPasswordPanel.Password
              m_pim := d.CurrentPasswordPanel.VolumePim
              m_kdf := d.CurrentPasswordPanel.Pkcs5Kdf
              m_truecryptMode := d.CurrentPasswordPanel.TrueCryptMode
              m_keyfiles := d.CurrentPasswordPanel.Keyfiles
              m_newPassword := d.CurrentPasswordPanel.Password
              m_newPim := d.CurrentPasswordPanel.VolumePim
              m_newKeyfiles := d.NewPasswordPanel.Keyfiles
              m_newPkcs5Kdf := d.NewPasswordPanel.Pkcs5Kdf
              m_wipeCount := d.NewPasswordPanel.HeaderWipeCount }
          ∈ (OnOKButtonClick env
              (OnPasswordPanelUpdate d { Trace := [], DeviceOwner := prior }).1
              { Trace := [], DeviceOwner := prior }).Trace)) := by
  refine ⟨?_, ?_⟩
  · intro routine hmem
    rcases OnOKButtonClick_cases env d { Trace := [], DeviceOwner := prior } with
      hstop | ⟨t1, pw, pim, t2, ht1, ht2, hsel, -, -, heq⟩
    · exfalso
      obtain ⟨t, ht, hq⟩ := hstop
      rw [ht] at hmem
      exact not_mem_of_all (x := Effect.ExecuteWaitThreadRoutine routine) hq rfl
        (by simpa using hmem)
    · rw [heq] at hmem
      dsimp only at hmem
      rcases List.mem_append.1 hmem with h | h
      · rcases runRoutine_mem_routine env d _ routine _ h with h3 | h3
        · exfalso
          dsimp only at h3
          rw [List.nil_append] at h3
          rcases List.mem_append.1 h3 with h4 | h4
          · exact not_mem_of_all (x := Effect.ExecuteWaitThreadRoutine routine) ht1 rfl h4
          · simp at h4
        · obtain ⟨hcp, hother⟩ := selectNewPassword_ok env d _ _ pw pim hsel
          rw [h3]
          refine ⟨?_, ?_, ?_, ?_, ?_, rfl, rfl, rfl, rfl, rfl⟩
          · intro hm
            exact hcp hm
          · intro hm
            exact hother hm
          · intro hm
            rcases hm with hm | hm <;> simp [makeRoutine, selectNewKeyfiles, hm]
          · intro hm
            simp [makeRoutine, selectNewKeyfiles, hm]
          · intro hm
            simp [makeRoutine, selectNewKeyfiles, hm]
      · exfalso
        exact not_mem_of_all (q := fun e => e.isInteraction || e.isResult)
          (x := Effect.ExecuteWaitThreadRoutine routine) ht2 rfl h
  · intro hmode hpw hkf hnew
    have hallowed : OnPasswordPanelUpdate.ok d = true := by
      have h1 : d.CurrentPasswordPanel.Password.IsEmpty = false := by
        simpa [VolumePassword.IsEmpty] using hpw
      have h2 := (keyfilesEmpty_eq_false_iff _).2 hnew
      simp [OnPasswordPanelUpdate.ok, hmode, h1, h2]
    refine ⟨by rw [OnPasswordPanelUpdate_enabled]; exact hallowed, ?_⟩
    intro halgo hown
    rw [OnPasswordPanelUpdate_fst, hallowed]
    have hsel : selectNewPassword env { d with OKButtonEnabled := true }
        { Trace := [], DeviceOwner := prior }
        = ({ Trace := [], DeviceOwner := prior },
            Except.ok (d.CurrentPasswordPanel.Password, d.CurrentPasswordPanel.VolumePim)) := by
      simp [selectNewPassword, hmode]
    rw [OnOKButtonClick_reached env { d with OKButtonEnabled := true } _ _ _ _ rfl halgo hsel]
    obtain ⟨t2, h2, -⟩ := afterRoutine_continued { d with OKButtonEnabled := true }
      (runRoutine env { d with OKButtonEnabled := true }
        (makeRoutine env { d with OKButtonEnabled := true } d.CurrentPasswordPanel.Password
          d.CurrentPasswordPanel.VolumePim (selectNewKeyfiles { d with OKButtonEnabled := true }))
        ((({ Trace := [], DeviceOwner := prior } : World).emit
          (Effect.SetEnrichedByUserStatus false)).emit
          (Effect.UserEnrichRandomPool (d.NewPasswordPanel.Pkcs5Kdf.map Pkcs5Kdf.Hash)))).1
      (runRoutine env { d with OKButtonEnabled := true }
        (makeRoutine env { d with OKButtonEnabled := true } d.CurrentPasswordPanel.Password
          d.CurrentPasswordPanel.VolumePim (selectNewKeyfiles { d with OKButtonEnabled := true }))
        ((({ Trace := [], DeviceOwner := prior } : World).emit
          (Effect.SetEnrichedByUserStatus false)).emit
          (Effect.UserEnrichRandomPool (d.NewPasswordPanel.Pkcs5Kdf.map Pkcs5Kdf.Hash)))).2
    rw [Prod.mk.eta] at h2
    rw [h2]
    dsimp only
    apply List.mem_append_left
    have hrun := runRoutine_runs env { d with OKButtonEnabled := true }
      (makeRoutine env { d with OKButtonEnabled := true } d.CurrentPasswordPanel.Password
          d.CurrentPasswordPanel.VolumePim (selectNewKeyfiles { d with OKButtonEnabled := true }))
      ((({ Trace := [], DeviceOwner := prior } : World).emit
          (Effect.SetEnrichedByUserStatus false)).emit
          (Effect.UserEnrichRandomPool (d.NewPasswordPanel.Pkcs5Kdf.map Pkcs5Kdf.Hash))) hown
    have hr : makeRoutine env { d with OKButtonEnabled := true } d.CurrentPasswordPanel.Password
          d.CurrentPasswordPanel.VolumePim (selectNewKeyfiles { d with OKButtonEnabled := true })
        = { m_volumePath := d.Path
            m_preserveTimestamps := env.PreserveTimestamps
            m_password := d.CurrentPasswordPanel.Password
            m_pim := d.CurrentPasswordPanel.VolumePim
            m_kdf := d.CurrentPasswordPanel.Pkcs5Kdf
            m_truecryptMode := d.CurrentPasswordPanel.TrueCryptMode
            m_keyfiles := d.CurrentPasswordPanel.Keyfiles
            m_newPassword := d.CurrentPasswordPanel.Password
            m_newPim := d.CurrentPasswordPanel.VolumePim
            m_newKeyfiles := d.NewPasswordPanel.Keyfiles
            m_newPkcs5Kdf := d.NewPasswordPanel.Pkcs5Kdf
            m_wipeCount := d.NewPasswordPanel.HeaderWipeCount } := by
      simp [makeRoutine, selectNewKeyfiles, hmode]
    rw [← hr]
    exact hrun

/-- Witness for C10 (amended): the routine run in the scenario of mode `ChangeKeyfiles`. -/
theorem new_credentials_passed_witness :
    Effect.ExecuteWaitThreadRoutine
        { m_volumePath := { Data := "/dev/sdb1", IsDevice := true }
          m_preserveTimestamps := true
          m_password := passwordOfSize 1
          m_pim := 0
          m_kdf := some { Name := "HMAC-SHA-512", Hash := { Name := "SHA-512" } }
          m_truecryptMode := false
          m_keyfiles := none
          m_newPassword := passwordOfSize 1
          m_newPim := 0
          m_newKeyfiles := some [{ Path := "k" }]
          m_newPkcs5Kdf := some { Name := "HMAC-Whirlpool", Hash := { Name := "Whirlpool" } }
          m_wipeCount := 3 }
      ∈ (OnOKButtonClick sampleEnv
          (OnPasswordPanelUpdate (sampleDialog Mode.ChangeKeyfiles samplePanel sampleNewPanel)
            { Trace := [], DeviceOwner := { SystemId := 0 } }).1
          { Trace := [], DeviceOwner := { SystemId := 0 } }).Trace :=
  ((new_credentials_passed sampleEnv
    (sampleDialog Mode.ChangeKeyfiles samplePanel sampleNewPanel) { SystemId := 0 }).2
    rfl (by decide) (Or.inl rfl) ⟨[{ Path := "k" }], rfl, by decide⟩).2 (by decide)
    (fun _ => ⟨rfl, rfl⟩)

/-- Counterexample to C10 as stated: mode `ChangeKeyfiles`, current password non-empty,
no current keyfiles, one new keyfile; submission is allowed and the routine is run, but
its new key derivation function is the one of the new panel, not the current
`HMAC-SHA-512`: `HMAC-Whirlpool` for the first new panel, none for the second. -/
theorem new_kdf_not_carried_forward :
    (sampleDialog Mode.ChangeKeyfiles samplePanel sampleNewPanel).CurrentPasswordPanel.Password.Size
        ≠ 0
    ∧ (sampleDialog Mode.ChangeKeyfiles samplePanel sampleNewPanel).CurrentPasswordPanel.Keyfiles
        = none
    ∧ (sampleDialog Mode.ChangeKeyfiles samplePanel sampleNewPanel).NewPasswordPanel.Keyfiles
        = some [{ Path := "k" }]
    ∧ (OnPasswordPanelUpdate (sampleDialog Mode.ChangeKeyfiles samplePanel sampleNewPanel)
        (freshWorld 0)).1.OKButtonEnabled = true
    ∧ (∃ routine : ChangePasswordThreadRoutine,
        Effect.ExecuteWaitThreadRoutine routine
          ∈ (OnOKButtonClick sampleEnv
              (sampleDialog Mode.ChangeKeyfiles samplePanel sampleNewPanel) (freshWorld 0)).Trace
        ∧ routine.m_kdf = some { Name := "HMAC-SHA-512", Hash := { Name := "SHA-512" } }
        ∧ routine.m_newPkcs5Kdf
          = some { Name := "HMAC-Whirlpool", Hash := { Name := "Whirlpool" } }
        ∧ routine.m_newPkcs5Kdf ≠ routine.m_kdf)
    ∧ (OnPasswordPanelUpdate (sampleDialog Mode.ChangeKeyfiles samplePanel sampleNewPanelNoKdf)
        (freshWorld 0)).1.OKButtonEnabled = true
    ∧ (∃ routine : ChangePasswordThreadRoutine,
        Effect.ExecuteWaitThreadRoutine routine
          ∈ (OnOKButtonClick sampleEnv
              (sampleDialog Mode.ChangeKeyfiles samplePanel sampleNewPanelNoKdf)
              (freshWorld 0)).Trace
        ∧ routine.m_kdf = some { Name := "HMAC-SHA-512", Hash := { Name := "SHA-512" } }
        ∧ routine.m_newPkcs5Kdf = none
        ∧ routine.m_newPkcs5Kdf ≠ routine.m_kdf) :=
  ⟨by decide, rfl, rfl, by decide,
    ⟨makeRoutine sampleEnv (sampleDialog Mode.ChangeKeyfiles samplePanel sampleNewPanel)
      (passwordOfSize 1) 0 (some [{ Path := "k" }]),
      by decide, rfl, rfl, by decide⟩,
    by decide,
    ⟨makeRoutine sampleEnv (sampleDialog Mode.ChangeKeyfiles samplePanel sampleNewPanelNoKdf)
      (passwordOfSize 1) 0 (some [{ Path := "k" }]),
      by decide, rfl, rfl, by decide⟩⟩

/-- C11 (amended): in mode `RemoveAllKeyfiles` a submit does not depend on the password,
keyfiles, PIM, TrueCrypt mode or confirmation state of the new panel: replacing the new
panel by any panel with the same key derivation function and the same header wipe count
leaves the whole log (the arguments of the enrichment request and of the routine
included) and the device owner unchanged; every routine run carries the current password
and PIM as new password and PIM and no new keyfiles, while the hash of the enrichment
request, the new key derivation function and the wipe count are those of the new
panel. -/
theorem remove_all_keyfiles_new_panel_unused (env : Environment) (d : ChangePasswordDialog)
    (new : VolumePasswordPanel) (w : World)
    (hmode : d.DialogMode = Mode.RemoveAllKeyfiles)
    (hkdf : new.Pkcs5Kdf = d.NewPasswordPanel.Pkcs5Kdf)
    (hwipe : new.HeaderWipeCount = d.NewPasswordPanel.HeaderWipeCount) :
    OnOKButtonClick env { d with NewPasswordPanel := new } w = OnOKButtonClick env d w
    ∧ ∀ routine : ChangePasswordThreadRoutine,
        Effect.ExecuteWaitThreadRoutine routine
          ∈ (OnOKButtonClick env d { Trace := [], DeviceOwner := w.DeviceOwner }).Trace →
        routine.m_newPassword = d.CurrentPasswordPanel.Password
        ∧ routine.m_newPim = d.CurrentPasswordPanel.VolumePim
        ∧ routine.m_newKeyfiles = none
        ∧ routine.m_newPkcs5Kdf = d.NewPasswordPanel.Pkcs5Kdf
        ∧ routine.m_wipeCount = d.NewPasswordPanel.HeaderWipeCount
        ∧ Effect.UserEnrichRandomPool (d.NewPasswordPanel.Pkcs5Kdf.map Pkcs5Kdf.Hash)
          ∈ (OnOKButtonClick env d { Trace := [], DeviceOwner := w.DeviceOwner }).Trace := by
  have hsel : ∀ (x : ChangePasswordDialog) (w0 : World),
      x.DialogMode = Mode.RemoveAllKeyfiles →
      selectNewPassword env x w0
        = (w0, Except.ok (x.CurrentPasswordPanel.Password, x.CurrentPasswordPanel.VolumePim)) := by
    intro x w0 hx
    simp [selectNewPassword, hx]
  have hkf : ∀ x : ChangePasswordDialog, x.DialogMode = Mode.RemoveAllKeyfiles →
      selectNewKeyfiles x = none := by
    intro x hx
    simp [selectNewKeyfiles, hx]
  refine ⟨?_, ?_⟩
  · have hr : ∀ (pw : VolumePassword) (pim : Int) (kf : Option KeyfileList),
        makeRoutine env { d with NewPasswordPanel := new } pw pim kf
          = makeRoutine env d pw pim kf := by
      intro pw pim kf
      simp [makeRoutine, hkdf, hwipe]
    simp only [OnOKButtonClick, OnOKButtonClick.tryBlock]
    rw [hsel { d with NewPasswordPanel := new } w hmode, hsel d w hmode,
      hkf { d with NewPasswordPanel := new } hmode, hkf d hmode]
    simp only [hr, hkdf]
    rfl
  · intro routine hmem
    obtain ⟨t1, pw, pim, tr, owner, -, -, hs, -, -, hrt, -, heq⟩ :=
      submit_with_routine env d w.DeviceOwner routine hmem
    rw [hsel d _ hmode] at hs
    simp only [Prod.mk.injEq, Except.ok.injEq] at hs
    obtain ⟨-, hpw, hpim⟩ := hs
    obtain ⟨t2, h2, -⟩ := afterRoutine_continued d
      { Trace := t1 ++ [Effect.SetEnrichedByUserStatus false,
          Effect.UserEnrichRandomPool (d.NewPasswordPanel.Pkcs5Kdf.map Pkcs5Kdf.Hash)] ++ tr
        DeviceOwner := owner } env.RekeyError
    rw [heq, h2, hrt, hkf d hmode, ← hpw, ← hpim]
    refine ⟨rfl, rfl, rfl, rfl, rfl, ?_⟩
    simp

/-- Witness for C11 (amended): a new panel with another password, other keyfiles, another
PIM and unmatched entries, but the same key derivation function and wipe count. -/
theorem remove_all_keyfiles_new_panel_unused_witness :
    OnOKButtonClick sampleEnv
        (sampleDialog Mode.RemoveAllKeyfiles sampleKeyfilePanel
          { samplePanel with
            Password := passwordOfSize 20
            Keyfiles := some [{ Path := "other" }]
            VolumePim := 1000
            PasswordsMatch := false })
        (freshWorld 0)
      = OnOKButtonClick sampleEnv
          (sampleDialog Mode.RemoveAllKeyfiles sampleKeyfilePanel samplePanel) (freshWorld 0) :=
  (remove_all_keyfiles_new_panel_unused sampleEnv
    (sampleDialog Mode.RemoveAllKeyfiles sampleKeyfilePanel samplePanel)
    { samplePanel with
      Password := passwordOfSize 20
      Keyfiles := some [{ Path := "other" }]
      VolumePim := 1000
      PasswordsMatch := false }
    (freshWorld 0) rfl rfl rfl).1

/-- Counterexample to C11 as stated: two submits in mode `RemoveAllKeyfiles` with the same
path, environment and current panel.  When the new panels differ in the key derivation
function only, the enrichment requests differ (hash `SHA-512` against no hash) and so do
the logs; when they differ in the header wipe count only, the routines differ (wipe count
3 against 35) and so do the logs. -/
theorem remove_all_keyfiles_reads_new_panel :
    (Effect.UserEnrichRandomPool (some { Name := "SHA-512" })
        ∈ (OnOKButtonClick sampleEnv
            (sampleDialog Mode.RemoveAllKeyfiles sampleKeyfilePanel samplePanel)
            (freshWorld 0)).Trace
      ∧ Effect.UserEnrichRandomPool none
        ∈ (OnOKButtonClick sampleEnv
            (sampleDialog Mode.RemoveAllKeyfiles sampleKeyfilePanel
              { samplePanel with Pkcs5Kdf := none })
            (freshWorld 0)).Trace
      ∧ OnOKButtonClick sampleEnv
          (sampleDialog Mode.RemoveAllKeyfiles sampleKeyfilePanel samplePanel) (freshWorld 0)
        ≠ OnOKButtonClick sampleEnv
          (sampleDialog Mode.RemoveAllKeyfiles sampleKeyfilePanel
            { samplePanel with Pkcs5Kdf := none })
          (freshWorld 0))
    ∧ (Effect.ExecuteWaitThreadRoutine
          (makeRoutine sampleEnv
            (sampleDialog Mode.RemoveAllKeyfiles sampleKeyfilePanel samplePanel)
            (passwordOfSize 1) 0 none)
        ∈ (OnOKButtonClick sampleEnv
            (sampleDialog Mode.RemoveAllKeyfiles sampleKeyfilePanel samplePanel)
            (freshWorld 0)).Trace
      ∧ (makeRoutine sampleEnv
            (sampleDialog Mode.RemoveAllKeyfiles sampleKeyfilePanel samplePanel)
            (passwordOfSize 1) 0 none).m_wipeCount = 3
      ∧ Effect.ExecuteWaitThreadRoutine
          (makeRoutine sampleEnv
            (sampleDialog Mode.RemoveAllKeyfiles sampleKeyfilePanel
              { samplePanel with HeaderWipeCount := 35 })
            (passwordOfSize 1) 0 none)
        ∈ (OnOKButtonClick sampleEnv
            (sampleDialog Mode.RemoveAllKeyfiles sampleKeyfilePanel
              { samplePanel with HeaderWipeCount := 35 })
            (freshWorld 0)).Trace
      ∧ (makeRoutine sampleEnv
            (sampleDialog Mode.RemoveAllKeyfiles sampleKeyfilePanel
              { samplePanel with HeaderWipeCount := 35 })
            (passwordOfSize 1) 0 none).m_wipeCount = 35
      ∧ OnOKButtonClick sampleEnv
          (sampleDialog Mode.RemoveAllKeyfiles sampleKeyfilePanel samplePanel) (freshWorld 0)
        ≠ OnOKButtonClick sampleEnv
          (sampleDialog Mode.RemoveAllKeyfiles sampleKeyfilePanel
            { samplePanel with HeaderWipeCount := 35 })
          (freshWorld 0)) := by
  decide

/-- C12: on a submit in which the routine is run and returns, the log ends with exactly
one result message followed by the end of the dialog with OK, the routine call comes
before them and no other result call is made; the message is `PASSWORD_CHANGED` in mode
`ChangePasswordAndKeyfiles`, `KEYFILE_CHANGED` in modes `ChangeKeyfiles` and
`RemoveAllKeyfiles`, `PKCS5_PRF_CHANGED` in mode `ChangePkcs5Prf`.  When the routine
fails, the log holds no result message and no end of the dialog with OK. -/
theorem result_message_after_routine (env : Environment) (d : ChangePasswordDialog)
    (prior : UserId) :
    (∀ routine : ChangePasswordThreadRoutine, env.RekeyError = none →
      Effect.ExecuteWaitThreadRoutine routine
        ∈ (OnOKButtonClick env d { Trace := [], DeviceOwner := prior }).Trace →
      ∃ before : List Effect,
        Effect.ExecuteWaitThreadRoutine routine ∈ before
        ∧ (∀ e ∈ before, e.isResult = false)
        ∧ (d.DialogMode = Mode.ChangePasswordAndKeyfiles →
          (OnOKButtonClick env d { Trace := [], DeviceOwner := prior }).Trace
            = before ++ [Effect.ShowInfo LangKey.PASSWORD_CHANGED, Effect.EndModalOK])
        ∧ (d.DialogMode = Mode.ChangeKeyfiles →
          (OnOKButtonClick env d { Trace := [], DeviceOwner := prior }).Trace
            = before ++ [Effect.ShowInfo LangKey.KEYFILE_CHANGED, Effect.EndModalOK])
        ∧ (d.DialogMode = Mode.RemoveAllKeyfiles →
          (OnOKButtonClick env d { Trace := [], DeviceOwner := prior }).Trace
            = before ++ [Effect.ShowInfo LangKey.KEYFILE_CHANGED, Effect.EndModalOK])
        ∧ (d.DialogMode = Mode.ChangePkcs5Prf →
          (OnOKButtonClick env d { Trace := [], DeviceOwner := prior }).Trace
            = before ++ [Effect.ShowInfo LangKey.PKCS5_PRF_CHANGED, Effect.EndModalOK]))
    ∧ (∀ e : ExceptionKind, env.RekeyError = some e →
      ∀ x ∈ (OnOKButtonClick env d { Trace := [], DeviceOwner := prior }).Trace,
        x.isResult = false) := by
  refine ⟨?_, ?_⟩
  · intro routine hok hmem
    obtain ⟨t1, pw, pim, tr, owner, ht1, htr, -, -, -, -, hin, heq⟩ :=
      submit_with_routine env d prior routine hmem
    rw [heq, hok]
    obtain ⟨h1, h2, h3, h4, -⟩ := afterRoutine_none d
      { Trace := t1 ++ [Effect.SetEnrichedByUserStatus false,
          Effect.UserEnrichRandomPool (d.NewPasswordPanel.Pkcs5Kdf.map Pkcs5Kdf.Hash)] ++ tr
        DeviceOwner := owner }
    refine ⟨t1 ++ [Effect.SetEnrichedByUserStatus false,
        Effect.UserEnrichRandomPool (d.NewPasswordPanel.Pkcs5Kdf.map Pkcs5Kdf.Hash)] ++ tr,
      List.mem_append_right _ hin, no_result_before t1 tr _ ht1 htr, ?_, ?_, ?_, ?_⟩
    · intro hm; rw [h1 hm]
    · intro hm; rw [h2 hm]
    · intro hm; rw [h3 hm]
    · intro hm; rw [h4 hm]
  · intro e he x hx
    rcases OnOKButtonClick_run env d { Trace := [], DeviceOwner := prior } with
      hstop | ⟨t1, pw, pim, tr, owner, res, ht1, htr, -, -, -, heq, hr1, hr2, -⟩
    · obtain ⟨t, ht, hq⟩ := hstop
      rw [ht] at hx
      exact interaction_not_result x (hq x (by simpa using hx))
    · have hres : ∃ e2, res = some e2 := by
        by_cases hin : Effect.ExecuteWaitThreadRoutine
            (makeRoutine env d pw pim (selectNewKeyfiles d)) ∈ tr
        · exact ⟨e, by rw [(hr1 _ hin).2, he]⟩
        · exact hr2 hin
      obtain ⟨e2, rfl⟩ := hres
      rw [heq, afterRoutine_some] at hx
      obtain ⟨t2, h2, ht2⟩ := catchClauses_continued e2 _ _ (continuedWith_refl _
        { Trace := ({ Trace := [], DeviceOwner := prior } : World).Trace
            ++ (t1 ++ [Effect.SetEnrichedByUserStatus false,
              Effect.UserEnrichRandomPool (d.NewPasswordPanel.Pkcs5Kdf.map Pkcs5Kdf.Hash)])
            ++ tr
          DeviceOwner := owner })
      rw [h2] at hx
      dsimp only at hx
      rw [List.nil_append] at hx
      rcases List.mem_append.1 hx with h | h
      · exact no_result_before t1 tr _ ht1 htr x h
      · exact interaction_not_result x (ht2 x h)

/-- Witness for C12: mode `ChangePkcs5Prf`, the routine returns: the log ends with
`PKCS5_PRF_CHANGED` and the end of the dialog. -/
theorem result_message_after_routine_witness :
    ∃ before : List Effect,
      Effect.ExecuteWaitThreadRoutine
          (makeRoutine sampleEnv (sampleDialog Mode.ChangePkcs5Prf samplePanel samplePanel)
            (passwordOfSize 1) 0 none) ∈ before
      ∧ (∀ e ∈ before, e.isResult = false)
      ∧ (OnOKButtonClick sampleEnv (sampleDialog Mode.ChangePkcs5Prf samplePanel samplePanel)
          { Trace := [], DeviceOwner := { SystemId := 0 } }).Trace
        = before ++ [Effect.ShowInfo LangKey.PKCS5_PRF_CHANGED, Effect.EndModalOK] :=
  match (result_message_after_routine sampleEnv
      (sampleDialog Mode.ChangePkcs5Prf samplePanel samplePanel) { SystemId := 0 }).1
      (makeRoutine sampleEnv (sampleDialog Mode.ChangePkcs5Prf samplePanel samplePanel)
        (passwordOfSize 1) 0 none) rfl (by decide) with
  | ⟨before, h1, h2, _, _, _, h6⟩ => ⟨before, h1, h2, h6 rfl⟩

/-- C13 (amended): on a submit the handler consults the stored state of the OK button
only.  When the button is disabled the handler makes no call at all and leaves the device
owner unchanged, whatever the panels hold; in particular a submit that follows an
`OnPasswordPanelUpdate` whose validation failed makes no call.  The validation itself is
not evaluated again. -/
theorem submit_checks_stored_flag (env : Environment) (d : ChangePasswordDialog) (w : World) :
    (d.OKButtonEnabled = false → OnOKButtonClick env d w = w)
    ∧ (∀ w0 : World, OnPasswordPanelUpdate.ok d = false →
        OnOKButtonClick env (OnPasswordPanelUpdate d w0).1 w = w) := by
  refine ⟨?_, ?_⟩
  · intro h
    simp [OnOKButtonClick, h]
  · intro w0 h
    rw [OnPasswordPanelUpdate_fst, h]
    simp [OnOKButtonClick]

/-- Witness for C13 (amended): no current password and no current keyfiles; after
`OnPasswordPanelUpdate` the submit makes no call. -/
theorem submit_checks_stored_flag_witness :
    OnOKButtonClick sampleEnv
        (OnPasswordPanelUpdate
          (sampleDialog Mode.ChangePkcs5Prf { samplePanel with Password := passwordOfSize 0 }
            samplePanel) (freshWorld 0)).1
        (freshWorld 0)
      = freshWorld 0 :=
  (submit_checks_stored_flag sampleEnv
    (sampleDialog Mode.ChangePkcs5Prf { samplePanel with Password := passwordOfSize 0 }
      samplePanel) (freshWorld 0)).2 (freshWorld 0) (by decide)

/-- Counterexample to C13 as stated: the current panel holds no password and no keyfiles,
so the validation of `OnPasswordPanelUpdate` is false, but the OK button is stored as
enabled; the submit requests the enrichment, takes ownership of the device and runs the
routine. -/
theorem submit_does_not_revalidate :
    OnPasswordPanelUpdate.ok
        (sampleDialog Mode.ChangePkcs5Prf { samplePanel with Password := passwordOfSize 0 }
          samplePanel) = false
    ∧ (sampleDialog Mode.ChangePkcs5Prf { samplePanel with Password := passwordOfSize 0 }
          samplePanel).OKButtonEnabled = true
    ∧ (OnOKButtonClick sampleEnv
        (sampleDialog Mode.ChangePkcs5Prf { samplePanel with Password := passwordOfSize 0 }
          samplePanel) (freshWorld 0)).Trace
      = [Effect.SetEnrichedByUserStatus false,
          Effect.UserEnrichRandomPool (some { Name := "SHA-512" }),
          Effect.GetOwner { Data := "/dev/sdb1", IsDevice := true },
          Effect.SetFileOwner { Data := "/dev/sdb1", IsDevice := true } { SystemId := 1000 },
          Effect.ExecuteWaitThreadRoutine
            (makeRoutine sampleEnv
              (sampleDialog Mode.ChangePkcs5Prf { samplePanel with Password := passwordOfSize 0 }
                samplePanel) (passwordOfSize 0) 0 none),
          Effect.SetFileOwner { Data := "/dev/sdb1", IsDevice := true } { SystemId := 0 },
          Effect.ShowInfo LangKey.PKCS5_PRF_CHANGED,
          Effect.EndModalOK] := by
  decide

/-- C14: failure classification on a submit.
(1) The catch clauses: `UnportablePassword` is shown as an error and the focus moves to
the new password field; any other `PasswordException` is shown as a warning and the focus
moves to the current password field; every other exception is shown as an error with no
focus change.
(2) When the portability check of line 102 fails (mode `ChangePasswordAndKeyfiles`, the
new password empty or not), the log is exactly the check, the error and the focus on the
new password field, and the device owner is unchanged.
(3) The portability check is made in mode `ChangePasswordAndKeyfiles` only, where it is
the first call after lines 83-94.
(4) Whatever exception leaves the try block, the handler goes on with the catch clause
of that exception, and the log holds no result call.
(5) When the routine is run and fails with `e`, the handler goes on with the catch clause
of `e` after the routine call, and the log before it holds no result call. -/
theorem failure_classification (env : Environment) (d : ChangePasswordDialog)
    (prior : UserId) :
    (∀ w : World,
      OnOKButtonClick.catchClauses ExceptionKind.UnportablePassword w
        = { Trace := w.Trace ++ [Effect.ShowErrorException ExceptionKind.UnportablePassword,
              Effect.SetFocusToPasswordTextCtrl Panel.New]
            DeviceOwner := w.DeviceOwner }
      ∧ OnOKButtonClick.catchClauses ExceptionKind.PasswordException w
        = { Trace := w.Trace ++ [Effect.ShowWarningException ExceptionKind.PasswordException,
              Effect.SetFocusToPasswordTextCtrl Panel.Current]
            DeviceOwner := w.DeviceOwner }
      ∧ OnOKButtonClick.catchClauses ExceptionKind.ParameterIncorrect w
        = { Trace := w.Trace ++ [Effect.ShowErrorException ExceptionKind.ParameterIncorrect]
            DeviceOwner := w.DeviceOwner }
      ∧ OnOKButtonClick.catchClauses ExceptionKind.Other w
        = { Trace := w.Trace ++ [Effect.ShowErrorException ExceptionKind.Other]
            DeviceOwner := w.DeviceOwner })
    ∧ (d.OKButtonEnabled = true → algoNotSupportedForTrueCryptMode d = false →
      d.DialogMode = Mode.ChangePasswordAndKeyfiles →
      env.Portable d.NewPasswordPanel.Password = false →
      OnOKButtonClick env d { Trace := [], DeviceOwner := prior }
        = { Trace := [Effect.CheckPortability d.NewPasswordPanel.Password,
              Effect.ShowErrorException ExceptionKind.UnportablePassword,
              Effect.SetFocusToPasswordTextCtrl Panel.New]
            DeviceOwner := prior })
    ∧ (d.DialogMode ≠ Mode.ChangePasswordAndKeyfiles →
      ∀ pw : VolumePassword,
        Effect.CheckPortability pw
          ∉ (OnOKButtonClick env d { Trace := [], DeviceOwner := prior }).Trace)
    ∧ (d.OKButtonEnabled = true → algoNotSupportedForTrueCryptMode d = false →
      d.DialogMode = Mode.ChangePasswordAndKeyfiles →
      ∃ rest : List Effect,
        (OnOKButtonClick env d { Trace := [], DeviceOwner := prior }).Trace
          = Effect.CheckPortability d.NewPasswordPanel.Password :: rest)
    ∧ (∀ (w1 : World) (e : ExceptionKind), d.OKButtonEnabled = true →
      OnOKButtonClick.tryBlock env d { Trace := [], DeviceOwner := prior } = (w1, some e) →
      OnOKButtonClick env d { Trace := [], DeviceOwner := prior }
        = OnOKButtonClick.catchClauses e w1
      ∧ ∀ x ∈ (OnOKButtonClick env d { Trace := [], DeviceOwner := prior }).Trace,
          x.isResult = false)
    ∧ (∀ (routine : ChangePasswordThreadRoutine) (e : ExceptionKind),
      Effect.ExecuteWaitThreadRoutine routine
        ∈ (OnOKButtonClick env d { Trace := [], DeviceOwner := prior }).Trace →
      env.RekeyError = some e →
      ∃ (before : List Effect) (owner : UserId),
        Effect.ExecuteWaitThreadRoutine routine ∈ before
        ∧ (∀ x ∈ before, x.isResult = false)
        ∧ OnOKButtonClick env d { Trace := [], DeviceOwner := prior }
          = OnOKButtonClick.catchClauses e { Trace := before, DeviceOwner := owner }) := by
  refine ⟨catchClauses_eq, ?_, ?_, ?_, ?_, ?_⟩
  · intro hen halgo hmode hport
    simp [OnOKButtonClick, OnOKButtonClick.tryBlock, selectNewPassword,
      OnOKButtonClick.catchClauses, World.emit, hen, halgo, hmode, hport]
  · intro hmode pw hmem
    cases hen : d.OKButtonEnabled
    · simp [OnOKButtonClick, hen] at hmem
    cases halgo : algoNotSupportedForTrueCryptMode d
    · have hs : selectNewPassword env d { Trace := [], DeviceOwner := prior }
          = ({ Trace := [], DeviceOwner := prior },
              Except.ok (d.CurrentPasswordPanel.Password, d.CurrentPasswordPanel.VolumePim)) := by
        simp [selectNewPassword, hmode]
      rw [OnOKButtonClick_reached env d _ _ _ _ hen halgo hs] at hmem
      obtain ⟨tr, owner, res, hrun, htr, -, -, -⟩ := runRoutine_parts env d
        (makeRoutine env d d.CurrentPasswordPanel.Password d.CurrentPasswordPanel.VolumePim
          (selectNewKeyfiles d))
        ((({ Trace := [], DeviceOwner := prior } : World).emit
          (Effect.SetEnrichedByUserStatus false)).emit
          (Effect.UserEnrichRandomPool (d.NewPasswordPanel.Pkcs5Kdf.map Pkcs5Kdf.Hash)))
      rw [hrun] at hmem
      obtain ⟨t2, h2, ht2⟩ := afterRoutine_reports d
        { Trace := ((({ Trace := [], DeviceOwner := prior } : World).emit
            (Effect.SetEnrichedByUserStatus false)).emit
            (Effect.UserEnrichRandomPool
              (d.NewPasswordPanel.Pkcs5Kdf.map Pkcs5Kdf.Hash))).Trace ++ tr
          DeviceOwner := owner } res
      rw [h2] at hmem
      simp only [World.emit, List.nil_append, List.mem_append, List.mem_cons,
        List.mem_singleton, List.not_mem_nil, or_false, List.cons_append] at hmem
      rcases hmem with h | h | h | h
      · exact Effect.noConfusion h
      · exact Effect.noConfusion h
      · exact not_mem_of_all (x := Effect.CheckPortability pw) htr rfl h
      · exact not_mem_of_all (q := fun e => e.isReport || e.isResult)
          (x := Effect.CheckPortability pw) ht2 rfl h
    · simp [OnOKButtonClick, OnOKButtonClick.tryBlock, hen, halgo, World.emit] at hmem
  · intro hen halgo hmode
    obtain ⟨t, ht⟩ := OnOKButtonClick_extends_select env d
      { Trace := [], DeviceOwner := prior } hen halgo
    obtain ⟨t0, ht0⟩ := selectNewPassword_starts env d { Trace := [], DeviceOwner := prior } hmode
    rw [ht, ht0]
    exact ⟨t0 ++ t, by simp⟩
  · intro w1 e hen htry
    have heq : OnOKButtonClick env d { Trace := [], DeviceOwner := prior }
        = OnOKButtonClick.catchClauses e w1 := by
      simp [OnOKButtonClick, hen, htry]
    refine ⟨heq, ?_⟩
    intro x hx
    rw [heq] at hx
    obtain ⟨t, ht, hq⟩ := tryBlock_thrown env d _ w1 e htry
    obtain ⟨t2, h2, hq2⟩ := catchClauses_continued e w1 w1 (continuedWith_refl _ w1)
    rw [h2] at hx
    dsimp only at hx
    rw [ht, List.nil_append] at hx
    rcases List.mem_append.1 hx with h | h
    · exact hq x h
    · exact interaction_not_result x (hq2 x h)
  · intro routine e hmem hfail
    obtain ⟨t1, pw, pim, tr, owner, ht1, htr, -, -, -, -, hin, heq⟩ :=
      submit_with_routine env d prior routine hmem
    rw [hfail, afterRoutine_some] at heq
    exact ⟨_, owner, List.mem_append_right _ hin, no_result_before t1 tr _ ht1 htr, heq⟩

/-- Witness for C14: an empty new password that fails the portability check: the log is
the check, the error and the focus on the new password field. -/
theorem failure_classification_witness :
    OnOKButtonClick { sampleEnv with Portable := fun _ => false }
        (sampleDialog Mode.ChangePasswordAndKeyfiles samplePanel
          { samplePanel with Password := passwordOfSize 0 })
        { Trace := [], DeviceOwner := { SystemId := 0 } }
      = { Trace := [Effect.CheckPortability (passwordOfSize 0),
            Effect.ShowErrorException ExceptionKind.UnportablePassword,
            Effect.SetFocusToPasswordTextCtrl Panel.New]
          DeviceOwner := { SystemId := 0 } } :=
  (failure_classification { sampleEnv with Portable := fun _ => false }
    (sampleDialog Mode.ChangePasswordAndKeyfiles samplePanel
      { samplePanel with Password := passwordOfSize 0 })
    { SystemId := 0 }).2.1 rfl (by decide) rfl rfl

/-- C15: the three local variables computed by the `switch` of the constructor are
(yes, yes, yes) for `ChangePasswordAndKeyfiles`, (no, yes, no) for `ChangeKeyfiles`,
(no, no, no) for `RemoveAllKeyfiles` and (no, no, yes) for `ChangePkcs5Prf`, and they are
what the new panel is created with; for any other mode value the constructor throws
`ParameterIncorrect` having made no call, so before any panel is created. -/
theorem constructor_enabled_fields (password newPassword : Option VolumePassword)
    (keyfiles newKeyfiles : Option KeyfileList) :
    (ChangePasswordDialog.modeSwitch Mode.ChangePasswordAndKeyfiles).2
        = Except.ok
            { enableNewPassword := true, enableNewKeyfiles := true, enablePkcs5Prf := true }
    ∧ (ChangePasswordDialog.modeSwitch Mode.ChangeKeyfiles).2
        = Except.ok
            { enableNewPassword := false, enableNewKeyfiles := true, enablePkcs5Prf := false }
    ∧ (ChangePasswordDialog.modeSwitch Mode.RemoveAllKeyfiles).2
        = Except.ok
            { enableNewPassword := false, enableNewKeyfiles := false, enablePkcs5Prf := false }
    ∧ (ChangePasswordDialog.modeSwitch Mode.ChangePkcs5Prf).2
        = Except.ok
            { enableNewPassword := false, enableNewKeyfiles := false, enablePkcs5Prf := true }
    ∧ ChangePasswordDialog.modeSwitch Mode.Invalid
        = ([], Except.error ExceptionKind.ParameterIncorrect)
    ∧ ChangePasswordDialog.ctor Mode.Invalid password keyfiles newPassword
          newKeyfiles
        = ([], some ExceptionKind.ParameterIncorrect)
    ∧ ((ChangePasswordDialog.ctor Mode.ChangePasswordAndKeyfiles password
          keyfiles newPassword newKeyfiles).2 = none
      ∧ (ChangePasswordDialog.ctor Mode.ChangePasswordAndKeyfiles password
          keyfiles newPassword newKeyfiles).1.filter ConstructorCall.isNewPanel
        = [ConstructorCall.NewVolumePasswordPanel Panel.Current password keyfiles
            [false, false, true, true, false, true, true],
           ConstructorCall.NewVolumePasswordPanel Panel.New newPassword newKeyfiles
            [true, false, true, true, true, true]])
    ∧ ((ChangePasswordDialog.ctor Mode.ChangeKeyfiles password
          keyfiles newPassword newKeyfiles).2 = none
      ∧ (ChangePasswordDialog.ctor Mode.ChangeKeyfiles password
          keyfiles newPassword newKeyfiles).1.filter ConstructorCall.isNewPanel
        = [ConstructorCall.NewVolumePasswordPanel Panel.Current password keyfiles
            [false, false, true, true, false, true, true],
           ConstructorCall.NewVolumePasswordPanel Panel.New newPassword newKeyfiles
            [true, false, false, true, false, false]])
    ∧ ((ChangePasswordDialog.ctor Mode.RemoveAllKeyfiles password
          keyfiles newPassword newKeyfiles).2 = none
      ∧ (ChangePasswordDialog.ctor Mode.RemoveAllKeyfiles password
          keyfiles newPassword newKeyfiles).1.filter ConstructorCall.isNewPanel
        = [ConstructorCall.NewVolumePasswordPanel Panel.Current password keyfiles
            [false, false, true, true, false, true, true],
           ConstructorCall.NewVolumePasswordPanel Panel.New newPassword newKeyfiles
            [true, false, false, false, false, false]])
    ∧ ((ChangePasswordDialog.ctor Mode.ChangePkcs5Prf password
          keyfiles newPassword newKeyfiles).2 = none
      ∧ (ChangePasswordDialog.ctor Mode.ChangePkcs5Prf password
          keyfiles newPassword newKeyfiles).1.filter ConstructorCall.isNewPanel
        = [ConstructorCall.NewVolumePasswordPanel Panel.Current password keyfiles
            [false, false, true, true, false, true, true],
           ConstructorCall.NewVolumePasswordPanel Panel.New newPassword newKeyfiles
            [true, false, false, false, false, true]]) := by
  refine ⟨rfl, rfl, rfl, rfl, rfl, rfl, ⟨rfl, rfl⟩, ⟨rfl, rfl⟩, ⟨rfl, rfl⟩, ⟨rfl, rfl⟩⟩

/-- C16: for every mode and every state of the panels, the value given to the OK button
by `OnPasswordPanelUpdate` is the conjunction of the base rule and of the rule of the
mode, so these rules are the only reasons for a rejection; in mode `ChangePkcs5Prf` the
value is true if and only if the current password is non-empty or the current keyfile
list has at least one entry. -/
theorem allowed_eq_rules (d : ChangePasswordDialog) (w : World) :
    (OnPasswordPanelUpdate d w).1.OKButtonEnabled = specAllowed d
    ∧ (d.DialogMode = Mode.ChangePkcs5Prf →
      ((OnPasswordPanelUpdate d w).1.OKButtonEnabled = true
        ↔ d.CurrentPasswordPanel.Password.Size ≠ 0
          ∨ ∃ l, d.CurrentPasswordPanel.Keyfiles = some l ∧ l ≠ [])) := by
  rw [OnPasswordPanelUpdate_enabled]
  have hk : ∀ k : Option KeyfileList,
      (match k with
        | none => true
        | some l => l.length == 0) = keyfilesEmpty k := by
    intro k
    cases k with
    | none => rfl
    | some l => cases l <;> rfl
  refine ⟨?_, ?_⟩
  · obtain ⟨pe, hpe⟩ : ∃ b, (d.CurrentPasswordPanel.Password.Size == 0) = b := ⟨_, rfl⟩
    obtain ⟨ke, hke⟩ : ∃ b, keyfilesEmpty d.CurrentPasswordPanel.Keyfiles = b := ⟨_, rfl⟩
    obtain ⟨npe, hnpe⟩ : ∃ b, (d.NewPasswordPanel.Password.Size == 0) = b := ⟨_, rfl⟩
    obtain ⟨nke, hnke⟩ : ∃ b, keyfilesEmpty d.NewPasswordPanel.Keyfiles = b := ⟨_, rfl⟩
    obtain ⟨pm, hpm⟩ : ∃ b, d.NewPasswordPanel.PasswordsMatch = b := ⟨_, rfl⟩
    obtain ⟨m, hm⟩ : ∃ m, d.DialogMode = m := ⟨_, rfl⟩
    simp only [specAllowed, hk, OnPasswordPanelUpdate.ok, VolumePassword.IsEmpty, hpe, hke,
      hnpe, hnke, hpm, hm]
    cases m <;> cases pe <;> cases ke <;> cases npe <;> cases nke <;> cases pm <;> rfl
  · intro hmode
    rw [← keyfilesEmpty_eq_false_iff]
    cases hkf : keyfilesEmpty d.CurrentPasswordPanel.Keyfiles <;>
      cases hp : d.CurrentPasswordPanel.Password.IsEmpty <;>
      simp [OnPasswordPanelUpdate.ok, hmode, hkf, hp] <;>
      simp [VolumePassword.IsEmpty] at hp <;> simp [hp]

/-- Witness for C16: mode `ChangePkcs5Prf` with a one-byte current password and no
keyfiles is allowed. -/
theorem allowed_eq_rules_witness :
    (OnPasswordPanelUpdate (sampleDialog Mode.ChangePkcs5Prf samplePanel samplePanel)
      (freshWorld 0)).1.OKButtonEnabled = true :=
  ((allowed_eq_rules (sampleDialog Mode.ChangePkcs5Prf samplePanel samplePanel)
    (freshWorld 0)).2 rfl).2 (Or.inl (by decide))

/-- C17: on a submit with an enabled OK button that is not rejected by line 89 and on
which lines 96-134 go on (log `w1.Trace`, no question declined), the log is `w1.Trace`,
then `SetEnrichedByUserStatus (false)`, then one `UserEnrichRandomPool` with the hash of
the key derivation function of the new panel, or with no hash when the new panel has
none, then the rest; neither `w1.Trace` nor the rest holds an enrichment call, and
`w1.Trace` holds no routine call, so the routine is run after the enrichment request. -/
theorem enrichment_once_before_routine (env : Environment) (d : ChangePasswordDialog)
    (prior : UserId) (w1 : World) (pw : VolumePassword) (pim : Int)
    (henabled : d.OKButtonEnabled = true)
    (halgo : algoNotSupportedForTrueCryptMode d = false)
    (hsel : selectNewPassword env d { Trace := [], DeviceOwner := prior }
      = (w1, Except.ok (pw, pim))) :
    ∃ rest : List Effect,
      (OnOKButtonClick env d { Trace := [], DeviceOwner := prior }).Trace
        = w1.Trace
          ++ [Effect.SetEnrichedByUserStatus false,
              Effect.UserEnrichRandomPool
                (match d.NewPasswordPanel.Pkcs5Kdf with
                  | some kdf => some kdf.Hash
                  | none => none)]
          ++ rest
      ∧ (∀ e ∈ w1.Trace, e.isEnrichment = false ∧ e.isRoutine = false)
      ∧ (∀ e ∈ rest, e.isEnrichment = false) := by
  have hhash : (match d.NewPasswordPanel.Pkcs5Kdf with
      | some kdf => some kdf.Hash
      | none => none) = d.NewPasswordPanel.Pkcs5Kdf.map Pkcs5Kdf.Hash := by
    cases d.NewPasswordPanel.Pkcs5Kdf <;> rfl
  rw [hhash, OnOKButtonClick_reached env d _ w1 pw pim henabled halgo hsel]
  obtain ⟨tr, owner, res, hrun, htr, -, -, -⟩ := runRoutine_parts env d
    (makeRoutine env d pw pim (selectNewKeyfiles d))
    ((w1.emit (Effect.SetEnrichedByUserStatus false)).emit
      (Effect.UserEnrichRandomPool (d.NewPasswordPanel.Pkcs5Kdf.map Pkcs5Kdf.Hash)))
  obtain ⟨t2, h2, ht2⟩ := afterRoutine_reports d
    { Trace := ((w1.emit (Effect.SetEnrichedByUserStatus false)).emit
        (Effect.UserEnrichRandomPool (d.NewPasswordPanel.Pkcs5Kdf.map Pkcs5Kdf.Hash))).Trace
        ++ tr
      DeviceOwner := owner } res
  rw [hrun, h2]
  refine ⟨tr ++ t2, by simp [World.emit], ?_, ?_⟩
  · have hc := selectNewPassword_continued env d { Trace := [], DeviceOwner := prior }
    rw [hsel] at hc
    obtain ⟨t1, ht1, hq⟩ := hc
    have hw1 : w1 = { Trace := [] ++ t1, DeviceOwner := prior } := ht1
    intro e he
    rw [hw1] at he
    have hi := hq e (by simpa using he)
    constructor
    · cases e <;> first | rfl | exact Bool.noConfusion hi
    · exact interaction_not_routine e hi
  · intro e he
    rcases List.mem_append.1 he with h | h
    · have hi := htr e h
      cases e <;> first | rfl | exact Bool.noConfusion hi
    · have hi := ht2 e h
      cases e <;> first | rfl | exact Bool.noConfusion hi

/-- Witness for C17: mode `ChangePasswordAndKeyfiles`, a new password of 20 bytes and the
PIM 1000, new key derivation function `HMAC-Whirlpool`. -/
theorem enrichment_once_before_routine_witness :
    ∃ rest : List Effect,
      (OnOKButtonClick sampleEnv
          (sampleDialog Mode.ChangePasswordAndKeyfiles samplePanel
            { sampleNewPanel with Password := passwordOfSize 20, VolumePim := 1000 })
          { Trace := [], DeviceOwner := { SystemId := 0 } }).Trace
        = [Effect.CheckPortability (passwordOfSize 20)]
          ++ [Effect.SetEnrichedByUserStatus false,
              Effect.UserEnrichRandomPool (some { Name := "Whirlpool" })]
          ++ rest
      ∧ (∀ e ∈ [Effect.CheckPortability (passwordOfSize 20)],
          e.isEnrichment = false ∧ e.isRoutine = false)
      ∧ (∀ e ∈ rest, e.isEnrichment = false) :=
  enrichment_once_before_routine sampleEnv
    (sampleDialog Mode.ChangePasswordAndKeyfiles samplePanel
      { sampleNewPanel with Password := passwordOfSize 20, VolumePim := 1000 })
    { SystemId := 0 }
    { Trace := [Effect.CheckPortability (passwordOfSize 20)], DeviceOwner := { SystemId := 0 } }
    (passwordOfSize 20) 1000 rfl (by decide) rfl

/-- C18: the value given to the OK button by `OnPasswordPanelUpdate` is the same for any
two dialogs and worlds that agree on the mode, on the emptiness of the current password
and of the current keyfiles, on the emptiness of the new keyfiles in mode
`ChangeKeyfiles`, and on the emptiness of the new password and of the new keyfiles and on
the confirmation match in mode `ChangePasswordAndKeyfiles`; the stored state of the OK
button, the log and every other field of the panels play no part.  Evaluating the
handler again on its own result gives the same dialog. -/
theorem validation_reads_enabled_fields (d1 d2 : ChangePasswordDialog) (w1 w2 : World)
    (hmode : d1.DialogMode = d2.DialogMode)
    (hpw : d1.CurrentPasswordPanel.Password.IsEmpty = d2.CurrentPasswordPanel.Password.IsEmpty)
    (hkf : keyfilesEmpty d1.CurrentPasswordPanel.Keyfiles
      = keyfilesEmpty d2.CurrentPasswordPanel.Keyfiles)
    (hck : d1.DialogMode = Mode.ChangeKeyfiles →
      keyfilesEmpty d1.NewPasswordPanel.Keyfiles = keyfilesEmpty d2.NewPasswordPanel.Keyfiles)
    (hcp : d1.DialogMode = Mode.ChangePasswordAndKeyfiles →
      d1.NewPasswordPanel.Password.IsEmpty = d2.NewPasswordPanel.Password.IsEmpty
      ∧ keyfilesEmpty d1.NewPasswordPanel.Keyfiles = keyfilesEmpty d2.NewPasswordPanel.Keyfiles
      ∧ d1.NewPasswordPanel.PasswordsMatch = d2.NewPasswordPanel.PasswordsMatch) :
    (OnPasswordPanelUpdate d1 w1).1.OKButtonEnabled
      = (OnPasswordPanelUpdate d2 w2).1.OKButtonEnabled
    ∧ (OnPasswordPanelUpdate (OnPasswordPanelUpdate d1 w1).1 w2).1
      = (OnPasswordPanelUpdate d1 w1).1 := by
  refine ⟨?_, ?_⟩
  · rw [OnPasswordPanelUpdate_enabled, OnPasswordPanelUpdate_enabled]
    unfold OnPasswordPanelUpdate.ok
    rw [← hmode, ← hpw, ← hkf]
    cases hm : d1.DialogMode
    · obtain ⟨h1, h2, h3⟩ := hcp hm
      simp [← h1, ← h2, ← h3]
    · simp [← hck hm]
    · simp
    · simp
    · simp
  · rw [OnPasswordPanelUpdate_fst, OnPasswordPanelUpdate_fst]
    have h : OnPasswordPanelUpdate.ok
        { d1 with OKButtonEnabled := OnPasswordPanelUpdate.ok d1 }
        = OnPasswordPanelUpdate.ok d1 := rfl
    rw [h]

/-- Witness for C18: in mode `ChangePasswordAndKeyfiles` two dialogs with different
non-empty passwords, absent against empty keyfile lists, different PIMs and different
stored states of the OK button get the same value. -/
theorem validation_reads_enabled_fields_witness :
    (OnPasswordPanelUpdate
        (sampleDialog Mode.ChangePasswordAndKeyfiles samplePanel
          { samplePanel with Password := passwordOfSize 20 })
        (freshWorld 0)).1.OKButtonEnabled
      = (OnPasswordPanelUpdate
          { sampleDialog Mode.ChangePasswordAndKeyfiles
              { samplePanel with Password := passwordOfSize 5, Keyfiles := some [] }
              { samplePanel with
                Password := passwordOfSize 3, Keyfiles := some [], VolumePim := 9 } with
            OKButtonEnabled := false }
          (freshWorld 7)).1.OKButtonEnabled :=
  (validation_reads_enabled_fields
    (sampleDialog Mode.ChangePasswordAndKeyfiles samplePanel
      { samplePanel with Password := passwordOfSize 20 })
    { sampleDialog Mode.ChangePasswordAndKeyfiles
        { samplePanel with Password := passwordOfSize 5, Keyfiles := some [] }
        { samplePanel with
          Password := passwordOfSize 3, Keyfiles := some [], VolumePim := 9 } with
      OKButtonEnabled := false }
    (freshWorld 0) (freshWorld 7) rfl (by decide) (by decide)
    (fun h => absurd h (by decide)) (fun _ => ⟨by decide, by decide, by decide⟩)).1

/-- C19: in every mode and every state in which `OnPasswordPanelUpdate` gives the OK
button the value true, the new password and new keyfiles selected by lines 96-140 are not
both empty: whenever lines 96-134 select a new password, it is non-empty or the new
keyfiles of lines 136-140 have at least one entry; and so every routine run by a submit
on such a state carries a non-empty new password or at least one new keyfile. -/
theorem allowed_change_keeps_a_credential (env : Environment) (d : ChangePasswordDialog)
    (w : World) (hallowed : (OnPasswordPanelUpdate d w).1.OKButtonEnabled = true) :
    (∀ (w0 w1 : World) (pw : VolumePassword) (pim : Int),
      selectNewPassword env d w0 = (w1, Except.ok (pw, pim)) →
      pw.Size ≠ 0 ∨ ∃ l, selectNewKeyfiles d = some l ∧ l ≠ [])
    ∧ (∀ (prior : UserId) (routine : ChangePasswordThreadRoutine),
      Effect.ExecuteWaitThreadRoutine routine
        ∈ (OnOKButtonClick env d { Trace := [], DeviceOwner := prior }).Trace →
      routine.m_newPassword.Size ≠ 0 ∨ ∃ l, routine.m_newKeyfiles = some l ∧ l ≠ []) := by
  rw [OnPasswordPanelUpdate_enabled] at hallowed
  have hsel : ∀ (w0 w1 : World) (pw : VolumePassword) (pim : Int),
      selectNewPassword env d w0 = (w1, Except.ok (pw, pim)) →
      pw.Size ≠ 0 ∨ ∃ l, selectNewKeyfiles d = some l ∧ l ≠ [] := by
    intro w0 w1 pw pim hs
    obtain ⟨hcp, hother⟩ := selectNewPassword_ok env d w0 w1 pw pim hs
    rw [← keyfilesEmpty_eq_false_iff]
    have hsize : ∀ p : VolumePassword, p.IsEmpty = false → p.Size ≠ 0 := by
      intro p hp
      simpa [VolumePassword.IsEmpty] using hp
    cases hm : d.DialogMode
    · obtain ⟨h1, -⟩ := hcp hm
      have hk : selectNewKeyfiles d = d.NewPasswordPanel.Keyfiles := by
        simp [selectNewKeyfiles, hm]
      rw [h1, hk]
      cases hnpe : d.NewPasswordPanel.Password.IsEmpty
      · exact Or.inl (hsize _ hnpe)
      · right
        cases hnke : keyfilesEmpty d.NewPasswordPanel.Keyfiles
        · rfl
        · exfalso
          simp [OnPasswordPanelUpdate.ok, hm, hnpe, hnke] at hallowed
    · obtain ⟨h1, -⟩ := hother (by rw [hm]; decide)
      have hk : selectNewKeyfiles d = d.NewPasswordPanel.Keyfiles := by
        simp [selectNewKeyfiles, hm]
      rw [h1, hk]
      cases hpe : d.CurrentPasswordPanel.Password.IsEmpty
      · exact Or.inl (hsize _ hpe)
      · right
        cases hnke : keyfilesEmpty d.NewPasswordPanel.Keyfiles
        · rfl
        · exfalso
          simp [OnPasswordPanelUpdate.ok, hm, hpe, hnke] at hallowed
    · obtain ⟨h1, -⟩ := hother (by rw [hm]; decide)
      rw [h1]
      cases hpe : d.CurrentPasswordPanel.Password.IsEmpty
      · exact Or.inl (hsize _ hpe)
      · exfalso
        simp [OnPasswordPanelUpdate.ok, hm, hpe] at hallowed
    · obtain ⟨h1, -⟩ := hother (by rw [hm]; decide)
      have hk : selectNewKeyfiles d = d.CurrentPasswordPanel.Keyfiles := by
        simp [selectNewKeyfiles, hm]
      rw [h1, hk]
      cases hpe : d.CurrentPasswordPanel.Password.IsEmpty
      · exact Or.inl (hsize _ hpe)
      · right
        cases hke : keyfilesEmpty d.CurrentPasswordPanel.Keyfiles
        · rfl
        · exfalso
          simp [OnPasswordPanelUpdate.ok, hm, hpe, hke] at hallowed
    · obtain ⟨h1, -⟩ := hother (by rw [hm]; decide)
      have hk : selectNewKeyfiles d = d.CurrentPasswordPanel.Keyfiles := by
        simp [selectNewKeyfiles, hm]
      rw [h1, hk]
      cases hpe : d.CurrentPasswordPanel.Password.IsEmpty
      · exact Or.inl (hsize _ hpe)
      · right
        cases hke : keyfilesEmpty d.CurrentPasswordPanel.Keyfiles
        · rfl
        · exfalso
          simp [OnPasswordPanelUpdate.ok, hm, hpe, hke] at hallowed
  refine ⟨hsel, ?_⟩
  intro prior routine hmem
  obtain ⟨t1, pw, pim, tr, owner, -, -, hs, -, -, hrt, -, -⟩ :=
    submit_with_routine env d prior routine hmem
  rw [hrt]
  exact hsel _ _ pw pim hs

/-- Witness for C19: mode `ChangeKeyfiles`, an empty current password with one current
keyfile and one new keyfile: allowed, and the routine run by the submit carries the new
keyfile. -/
theorem allowed_change_keeps_a_credential_witness :
    (makeRoutine sampleEnv
        (sampleDialog Mode.ChangeKeyfiles
          { sampleKeyfilePanel with Password := passwordOfSize 0 } sampleNewPanel)
        (passwordOfSize 0) 0 (some [{ Path := "k" }])).m_newPassword.Size ≠ 0
    ∨ ∃ l, (makeRoutine sampleEnv
        (sampleDialog Mode.ChangeKeyfiles
          { sampleKeyfilePanel with Password := passwordOfSize 0 } sampleNewPanel)
        (passwordOfSize 0) 0 (some [{ Path := "k" }])).m_newKeyfiles = some l ∧ l ≠ [] :=
  (allowed_change_keeps_a_credential sampleEnv
    (sampleDialog Mode.ChangeKeyfiles
      { sampleKeyfilePanel with Password := passwordOfSize 0 } sampleNewPanel)
    (freshWorld 0) (by decide)).2 { SystemId := 0 } _ (by decide)

/-- C20: when the process has administrator privileges or the path is not a device, a
submit makes no `SetFileOwner` call, whatever the outcome of the routine, and the device
owner after the submit is the owner before it. -/
theorem no_ownership_call_unless_required (env : Environment) (d : ChangePasswordDialog)
    (w : World) (h : env.HasAdminPrivileges = true ∨ d.Path.IsDevice = false) :
    ∃ t : List Effect,
      OnOKButtonClick env d w = { Trace := w.Trace ++ t, DeviceOwner := w.DeviceOwner }
      ∧ ∀ e ∈ t, e.isSetFileOwner = false := by
  rcases OnOKButtonClick_run env d w with
    hstop | ⟨t1, pw, pim, tr, owner, res, ht1, -, -, -, -, heq, -, -, hplain⟩
  · obtain ⟨t, ht, hq⟩ := hstop
    exact ⟨t, ht, fun e he => interaction_not_owner e (hq e he)⟩
  · have hc : ¬ (env.TC_UNIX = true ∧ env.HasAdminPrivileges = false ∧ d.Path.IsDevice = true) := by
      rintro ⟨-, ha, hd⟩
      rcases h with h | h
      · rw [h] at ha; exact Bool.noConfusion ha
      · rw [h] at hd; exact Bool.noConfusion hd
    obtain ⟨htr, howner⟩ := hplain hc
    obtain ⟨t2, h2, ht2⟩ := afterRoutine_continued d
      { Trace := w.Trace ++ (t1 ++ [Effect.SetEnrichedByUserStatus false,
          Effect.UserEnrichRandomPool (d.NewPasswordPanel.Pkcs5Kdf.map Pkcs5Kdf.Hash)]) ++ tr
        DeviceOwner := owner } res
    rw [heq, h2, htr, howner]
    refine ⟨t1 ++ [Effect.SetEnrichedByUserStatus false,
        Effect.UserEnrichRandomPool (d.NewPasswordPanel.Pkcs5Kdf.map Pkcs5Kdf.Hash),
        Effect.ExecuteWaitThreadRoutine (makeRoutine env d pw pim (selectNewKeyfiles d))] ++ t2,
      by simp, ?_⟩
    intro e he
    simp only [List.mem_append, List.mem_cons, List.mem_singleton, List.not_mem_nil,
      or_false] at he
    rcases he with (h1 | h1 | h1 | h1) | h1
    · exact interaction_not_owner e (ht1 e h1)
    · rw [h1]; rfl
    · rw [h1]; rfl
    · rw [h1]; rfl
    · have hi := ht2 e h1
      cases e <;> first | rfl | exact Bool.noConfusion hi

/-- Witness for C20: an administrator changes the key derivation function of a volume on
a device and the routine fails: no `SetFileOwner` call, the owner stays 0. -/
theorem no_ownership_call_unless_required_witness :
    ∃ t : List Effect,
      OnOKButtonClick
          { sampleEnv with
            HasAdminPrivileges := true, RekeyError := some ExceptionKind.Other }
          (sampleDialog Mode.ChangePkcs5Prf samplePanel samplePanel) (freshWorld 0)
        = { Trace := (freshWorld 0).Trace ++ t, DeviceOwner := (freshWorld 0).DeviceOwner }
      ∧ ∀ e ∈ t, e.isSetFileOwner = false :=
  no_ownership_call_unless_required
    { sampleEnv with HasAdminPrivileges := true, RekeyError := some ExceptionKind.Other }
    (sampleDialog Mode.ChangePkcs5Prf samplePanel samplePanel) (freshWorld 0) (Or.inl rfl)

end VeraCrypt
